import Mathlib

/-!
Shallow embedding of the RepPolice squat-analysis core
(`src/lib/squatAnalysis.ts` and the pose-detection helpers) over exact
rationals, together with theorems settling the frozen claims.

Conventions of the embedding:
* JavaScript numbers are modelled as `ℚ` (exact arithmetic).
* The transcendental library functions (`Math.sqrt`, `Math.atan2 · 180/π`,
  `Math.acos · 180/π`) are abstracted into a `MathPrims` record; every
  theorem that touches them is proved for an arbitrary `MathPrims`, i.e.
  for every possible behaviour of those functions, which covers the real
  ones.
* `Math.round x` is `⌊x + 1/2⌋`, which is the ECMAScript definition.
* Landmark and frame lookups `xs[i]` are modelled with `List.getD` and a
  zero default; all accesses performed by the analysed code stay in
  bounds for the inputs the claims quantify over.
* A thrown `Error` is modelled as `Except.error` with the thrown message.
-/

namespace RepPolice

/-- ECMAScript `Math.round`: round half toward positive infinity. -/
def jsRound (q : ℚ) : ℤ := ⌊q + 1/2⌋

/-- `clamp(value, min, max)` from squatAnalysis.ts:
`Math.max(min, Math.min(max, value))`. -/
def clamp (value lo hi : ℚ) : ℚ := max lo (min hi value)

/-- `Math.max(...xs)` for the nonempty lists the code applies it to
(for `[]` the code never consumes the result except through comparisons
that behave as if the value were the default, see call sites). -/
def listMax (xs : List ℚ) : ℚ := xs.foldl max (xs.headD 0)

/-- `Math.min(...xs)`, same conventions as `listMax`. -/
def listMin (xs : List ℚ) : ℚ := xs.foldl min (xs.headD 0)

/-- `q.toFixed(1)` for the nonnegative readouts interpolated into
summaries: nearest multiple of 1/10, ties away from zero. -/
def toFixed1 (q : ℚ) : String :=
  let n : ℤ := ⌊|q| * 10 + 1/2⌋
  let sign := if q < 0 ∧ n ≠ 0 then "-" else ""
  sign ++ toString (n / 10) ++ "." ++ toString (n % 10)

/-- Integer list of consecutive indices `a, a+1, …, b-1` (empty when `b ≤ a`),
used to model `for` loops whose bounds are signed expressions. -/
def intRange (a b : ℤ) : List ℤ := (List.range (b - a).toNat).map (fun k => a + k)

-- ─── Data model (src/lib/types.ts) ────────────────────────────────────────

structure Landmark where
  x : ℚ
  y : ℚ
  z : ℚ
  visibility : ℚ
deriving DecidableEq, Repr

structure PoseFrame where
  timestamp : ℚ
  landmarks : List Landmark
deriving DecidableEq, Repr

inductive CameraAngle where
  | frontal | rear | left_side | right_side | diagonal | uncertain
deriving DecidableEq, Repr

inductive ExerciseType where
  | squat | deadlift | other | unknown
deriving DecidableEq, Repr

inductive MetricRating where
  | green | yellow | red
deriving DecidableEq, Repr

inductive MetricConfidence where
  | high | medium | low
deriving DecidableEq, Repr

structure MetricScore where
  score : ℤ
  rating : MetricRating
  summary : String
  issueFrames : List ℕ
  confidence : MetricConfidence
deriving DecidableEq, Repr

structure DetectedRep where
  startFrame : ℕ
  endFrame : ℕ
  bottomFrame : ℕ
deriving DecidableEq, Repr

structure RepData where
  repNumber : ℕ
  startFrame : ℕ
  endFrame : ℕ
  bottomFrame : ℕ
  depth : MetricScore
  kneeTracking : MetricScore
  backAngle : MetricScore
  barPath : MetricScore
  symmetry : MetricScore
  buttWink : MetricScore
  tempo : MetricScore
  heelRise : MetricScore
  stanceWidth : MetricScore
  hipShift : MetricScore
  kneeValgus : MetricScore
  kneeTravel : MetricScore
  depthConsistency : MetricScore
  thoracicRounding : MetricScore
  hipRiseRate : MetricScore
  reversalControl : MetricScore
  stanceWidthShift : MetricScore
  headPosition : MetricScore
deriving DecidableEq, Repr

structure OverallScores where
  depth : MetricScore
  kneeTracking : MetricScore
  backAngle : MetricScore
  barPath : MetricScore
  symmetry : MetricScore
  buttWink : MetricScore
  tempo : MetricScore
  heelRise : MetricScore
  stanceWidth : MetricScore
  hipShift : MetricScore
  kneeValgus : MetricScore
  kneeTravel : MetricScore
  depthConsistency : MetricScore
  thoracicRounding : MetricScore
  hipRiseRate : MetricScore
  reversalControl : MetricScore
  stanceWidthShift : MetricScore
  headPosition : MetricScore
deriving DecidableEq, Repr

structure SquatAnalysisResult where
  reps : List RepData
  overall : OverallScores
  repCount : ℕ
  exerciseType : Option ExerciseType
  cameraAngle : Option CameraAngle
deriving DecidableEq, Repr

/-- `POSE_LANDMARKS` indices from types.ts. -/
def NOSE : ℕ := 0
def LEFT_EYE : ℕ := 2
def RIGHT_EYE : ℕ := 5
def LEFT_SHOULDER : ℕ := 11
def RIGHT_SHOULDER : ℕ := 12
def LEFT_ELBOW : ℕ := 13
def RIGHT_ELBOW : ℕ := 14
def LEFT_WRIST : ℕ := 15
def RIGHT_WRIST : ℕ := 16
def LEFT_HIP : ℕ := 23
def RIGHT_HIP : ℕ := 24
def LEFT_KNEE : ℕ := 25
def RIGHT_KNEE : ℕ := 26
def LEFT_ANKLE : ℕ := 27
def RIGHT_ANKLE : ℕ := 28
def LEFT_HEEL : ℕ := 29
def RIGHT_HEEL : ℕ := 30
def LEFT_FOOT_INDEX : ℕ := 31
def RIGHT_FOOT_INDEX : ℕ := 32

/-- Default landmark used for the (never exercised in-range) `getD` default. -/
def dfltLm : Landmark := ⟨0, 0, 0, 0⟩

/-- Default frame for out-of-range frame lookups. -/
def dfltFrame : PoseFrame := ⟨0, []⟩

/-- `frame.landmarks[i]`. -/
def lmk (f : PoseFrame) (i : ℕ) : Landmark := f.landmarks.getD i dfltLm

/-- `frames[i]`. -/
def getF (frames : List PoseFrame) (i : ℕ) : PoseFrame := frames.getD i dfltFrame

/-- Abstraction of the transcendental `Math` routines used by the code.
`atan2deg a b` stands for `atan2(a, b) * 180 / π` and `acosdeg c` for
`acos(c) * 180 / π`. -/
structure MathPrims where
  sqrt : ℚ → ℚ
  atan2deg : ℚ → ℚ → ℚ
  acosdeg : ℚ → ℚ

/-- A trivial instantiation used by concrete witnesses. -/
def P0 : MathPrims := ⟨fun _ => 0, fun _ _ => 0, fun _ => 0⟩

-- ─── Geometry helpers ─────────────────────────────────────────────────────

/-- `angleBetween(a, b, c)`: the angle at `b` in degrees. -/
def angleBetween (P : MathPrims) (a b c : Landmark) : ℚ :=
  let baX := a.x - b.x
  let baY := a.y - b.y
  let bcX := c.x - b.x
  let bcY := c.y - b.y
  let dot := baX * bcX + baY * bcY
  let magBA := P.sqrt (baX * baX + baY * baY)
  let magBC := P.sqrt (bcX * bcX + bcY * bcY)
  if magBA = 0 ∨ magBC = 0 then 0
  else P.acosdeg (max (-1) (min 1 (dot / (magBA * magBC))))

/-- `midpoint(a, b)`. -/
def midpoint (a b : Landmark) : Landmark :=
  ⟨(a.x + b.x) / 2, (a.y + b.y) / 2, (a.z + b.z) / 2,
   (a.visibility + b.visibility) / 2⟩

/-- `getRating(score)`; the code always applies it to the already rounded
integer score. -/
def getRating (score : ℤ) : MetricRating :=
  if score ≥ 80 then .green
  else if score ≥ 50 then .yellow
  else .red

-- ─── Confidence matrix ────────────────────────────────────────────────────

/-- `getMetricConfidence(metric, cameraAngle)`: the static
`CONFIDENCE_MATRIX` lookup, defaulting to medium for unknown metrics. -/
def getMetricConfidence (metric : String) (angle : CameraAngle) : MetricConfidence :=
  let pick := fun (fr re ls rs di un : MetricConfidence) =>
    match angle with
    | .frontal => fr | .rear => re | .left_side => ls
    | .right_side => rs | .diagonal => di | .uncertain => un
  if metric = "depth" then pick .medium .medium .high .high .high .medium
  else if metric = "kneeTracking" then pick .high .high .low .low .medium .medium
  else if metric = "backAngle" then pick .low .low .high .high .medium .medium
  else if metric = "barPath" then pick .low .low .high .high .medium .medium
  else if metric = "symmetry" then pick .high .high .low .low .medium .medium
  else if metric = "buttWink" then pick .low .low .high .high .medium .medium
  else if metric = "tempo" then pick .high .high .high .high .high .high
  else if metric = "heelRise" then pick .medium .medium .high .high .high .medium
  else if metric = "stanceWidth" then pick .high .high .low .low .medium .medium
  else if metric = "hipShift" then pick .high .high .low .low .medium .medium
  else if metric = "kneeValgus" then pick .high .high .low .low .medium .medium
  else if metric = "kneeTravel" then pick .low .low .high .high .medium .medium
  else if metric = "depthConsistency" then pick .medium .medium .high .high .high .medium
  else if metric = "thoracicRounding" then pick .low .low .high .high .medium .medium
  else if metric = "hipRiseRate" then pick .low .low .high .high .medium .medium
  else if metric = "reversalControl" then pick .medium .medium .high .high .high .medium
  else if metric = "stanceWidthShift" then pick .high .high .low .low .medium .medium
  else if metric = "headPosition" then pick .low .low .high .high .medium .medium
  else .medium

-- ─── Smoothing ────────────────────────────────────────────────────────────

/-- `movingAverage(values, windowSize)`: centered moving average with
boundary clipping. -/
def movingAverage (values : List ℚ) (windowSize : ℕ) : List ℚ :=
  let half := windowSize / 2
  (List.range values.length).map (fun i =>
    let start := i - half
    let stop := min (values.length - 1) (i + half)
    let idxs := List.range' start (stop + 1 - start)
    (idxs.map (fun j => values.getD j 0)).sum / (stop + 1 - start))

-- ─── Rep detection ────────────────────────────────────────────────────────

/-- The per-frame average hip `y` (mean of left and right hip). -/
def hipYValues (frames : List PoseFrame) : List ℚ :=
  frames.map (fun f => ((lmk f LEFT_HIP).y + (lmk f RIGHT_HIP).y) / 2)

/-- `findValley(smoothed, from, -1, 0)`: walk left from a bottom while the
smoothed signal keeps not increasing. -/
def findValleyLeft (s : List ℚ) : ℕ → ℕ
  | 0 => 0
  | i + 1 => if s.getD i 0 > s.getD (i + 1) 0 then i + 1 else findValleyLeft s i

/-- `findValley(smoothed, from, 1, m)`: walk right up to boundary `m`. -/
def findValleyRight (s : List ℚ) (m : ℕ) (i : ℕ) : ℕ :=
  if _h : i < m then
    if s.getD (i + 1) 0 > s.getD i 0 then i else findValleyRight s m (i + 1)
  else i
termination_by m - i

/-- The local-maximum plus prominence test applied to candidate index `i`
of the smoothed signal inside `detectReps`. -/
def isBottom (s : List ℚ) (i : ℕ) : Bool :=
  let v := s.getD i 0
  if v > s.getD (i - 1) 0 ∧ v > s.getD (i - 2) 0 ∧
     v > s.getD (i + 1) 0 ∧ v > s.getD (i + 2) 0 then
    let leftIdx := List.range' (i - 15) (i - (i - 15))
    let leftMin := (leftIdx.map (fun j => s.getD j 0)).foldl min v
    let rightIdx := List.range' (i + 1) (min (s.length - 1) (i + 15) + 1 - (i + 1))
    let rightMin := (rightIdx.map (fun j => s.getD j 0)).foldl min v
    decide (v - max leftMin rightMin ≥ 0.02)
  else false

/-- The rep-construction loop of `detectReps`: `prev?` is the previous
bottom (`none` on the first iteration, modelling `prevBottom === -1`),
and the head of the remaining list plays `nextBottom`. -/
def buildReps (s : List ℚ) (n : ℕ) : Option ℕ → List ℕ → List DetectedRep
  | _, [] => []
  | prev?, b :: rest =>
    let start := match prev? with
      | none => findValleyLeft s b
      | some p => (p + b) / 2
    let stop := match rest with
      | [] => findValleyRight s (s.length - 1) b
      | nb :: _ => (b + nb) / 2 - 1
    ⟨max 0 start, min (n - 1) stop, b⟩ :: buildReps s n (some b) rest

/-- `detectReps(frames)`. -/
def detectReps (frames : List PoseFrame) : List DetectedRep :=
  if frames.length < 5 then []
  else
    let smoothed := movingAverage (hipYValues frames) 5
    let bottoms := (List.range' 2 (smoothed.length - 4)).filter (isBottom smoothed)
    if bottoms = [] then []
    else buildReps smoothed frames.length none bottoms

-- ─── Metric scorers ───────────────────────────────────────────────────────

/-- Default metric score for the (in-bounds only) list lookups. -/
def dfltMS : MetricScore := ⟨0, .red, "", [], .high⟩

/-- Every scorer ends with
`{score: Math.round(s), rating: getRating(Math.round(s)), summary, issueFrames, confidence: "high"}`;
this helper is that shared epilogue. -/
def mkMS (s : ℚ) (summary : String) (issueFrames : List ℕ) : MetricScore :=
  ⟨jsRound s, getRating (jsRound s), summary, issueFrames, .high⟩

/-- The inclusive index range `rep.startFrame … rep.endFrame` iterated by
the per-rep scoring loops. -/
def repRange (rep : DetectedRep) : List ℕ :=
  List.range' rep.startFrame (rep.endFrame + 1 - rep.startFrame)

/-- The per-frame average hip `y` used throughout the scorers. -/
def hipYAt (frames : List PoseFrame) (i : ℕ) : ℚ :=
  ((lmk (getF frames i) LEFT_HIP).y + (lmk (getF frames i) RIGHT_HIP).y) / 2

/-- The per-frame average shoulder `y`. -/
def shoulderYAt (frames : List PoseFrame) (i : ℕ) : ℚ :=
  ((lmk (getF frames i) LEFT_SHOULDER).y + (lmk (getF frames i) RIGHT_SHOULDER).y) / 2

/-- The shoulder-mid-to-hip-mid angle from vertical computed identically in
`scoreBackAngle` and `scoreButtWink`. -/
def spineAngle (P : MathPrims) (f : PoseFrame) : ℚ :=
  let shoulderMid := midpoint (lmk f LEFT_SHOULDER) (lmk f RIGHT_SHOULDER)
  let hipMid := midpoint (lmk f LEFT_HIP) (lmk f RIGHT_HIP)
  P.atan2deg |shoulderMid.x - hipMid.x| |shoulderMid.y - hipMid.y|

/-- `scoreDepth(frames, rep)`. -/
def scoreDepth (P : MathPrims) (frames : List PoseFrame) (rep : DetectedRep) : MetricScore :=
  let f := getF frames rep.bottomFrame
  -- the hip-angle computation of the source is dead code (unused variable)
  let _avgHipAngle :=
    (angleBetween P (lmk f LEFT_SHOULDER) (lmk f LEFT_HIP) (lmk f LEFT_KNEE) +
     angleBetween P (lmk f RIGHT_SHOULDER) (lmk f RIGHT_HIP) (lmk f RIGHT_KNEE)) / 2
  let avgHipY := ((lmk f LEFT_HIP).y + (lmk f RIGHT_HIP).y) / 2
  let avgKneeY := ((lmk f LEFT_KNEE).y + (lmk f RIGHT_KNEE).y) / 2
  if avgHipY > avgKneeY then
    mkMS (clamp (80 + (avgHipY - avgKneeY) * 200) 80 100)
      "Good depth — hips dropped below parallel" []
  else
    let deficit := avgKneeY - avgHipY
    if deficit < 0.03 then
      mkMS (clamp (50 + (1 - deficit / 0.03) * 29) 50 79)
        "Close to parallel but hips didn\x27t quite reach below knee level" []
    else
      mkMS (clamp (49 - deficit * 300) 0 49)
        "Squat depth is above parallel — try to get hips below knee level" [rep.bottomFrame]

/-- `isActiveFrame(frames, rep, frameIdx)`. -/
def isActiveFrame (frames : List PoseFrame) (rep : DetectedRep) (frameIdx : ℕ) : Bool :=
  let standingY := hipYAt frames rep.startFrame
  let totalDrop := hipYAt frames rep.bottomFrame - standingY
  if |totalDrop| < 0.01 then true
  else decide ((hipYAt frames frameIdx - standingY) / totalDrop ≥ 0.25)

/-- `scoreKneeTracking(frames, rep)`. -/
def scoreKneeTracking (frames : List PoseFrame) (rep : DetectedRep) : MetricScore :=
  let stanceW := fun (i : ℕ) =>
    |(lmk (getF frames i) LEFT_ANKLE).x - (lmk (getF frames i) RIGHT_ANKLE).x|
  let drift := fun (i : ℕ) =>
    let f := getF frames i
    max (|(lmk f LEFT_KNEE).x - (lmk f LEFT_ANKLE).x| / stanceW i)
        (|(lmk f RIGHT_KNEE).x - (lmk f RIGHT_ANKLE).x| / stanceW i)
  let considered := (repRange rep).filter
    (fun i => isActiveFrame frames rep i && decide (¬ stanceW i < 0.01))
  let maxDriftR := (considered.map drift).foldl max 0
  let issueFrames := considered.filter (fun i => decide (drift i > 0.1))
  if maxDriftR < 0.05 then
    mkMS (clamp (80 + (1 - maxDriftR / 0.05) * 20) 80 100)
      "Good knee tracking — knees stayed aligned over toes" issueFrames
  else if maxDriftR < 0.1 then
    mkMS (clamp (50 + ((0.1 - maxDriftR) / 0.05) * 29) 50 79)
      "Minor knee drift detected — focus on pushing knees out over toes" issueFrames
  else
    mkMS (clamp (49 - (maxDriftR - 0.1) * 200) 0 49)
      "Significant knee cave detected — knees collapsed inward during the squat" issueFrames

/-- `scoreBackAngle(frames, rep)`. -/
def scoreBackAngle (P : MathPrims) (frames : List PoseFrame) (rep : DetectedRep) : MetricScore :=
  let idxs := repRange rep
  let angles := idxs.map (fun i => spineAngle P (getF frames i))
  let issueFrames := idxs.filter (fun i => decide (spineAngle P (getF frames i) > 60))
  if angles = [] then ⟨50, .yellow, "Could not assess back angle", [], .high⟩
  else
    let maxAngle := listMax angles
    let mean := angles.sum / (angles.length : ℚ)
    let variance := (angles.map (fun a => (a - mean) ^ 2)).sum / (angles.length : ℚ)
    let stdDev := P.sqrt variance
    -- the two mutable JS locals `score` and `summary`, as parallel conditionals
    let baseScore :=
      if maxAngle ≤ 45 ∧ stdDev < 10 then clamp (80 + (1 - maxAngle / 45) * 20) 80 100
      else if maxAngle ≤ 60 then clamp (50 + ((60 - maxAngle) / 15) * 29) 50 79
      else clamp (49 - (maxAngle - 60) * 2) 0 49
    let baseSummary :=
      if maxAngle ≤ 45 ∧ stdDev < 10 then "Good torso position — maintained an upright back angle"
      else if maxAngle ≤ 60 then "Moderate forward lean — try to keep your chest more upright"
      else "Excessive forward lean — risk of lower back strain"
    let finalScore := if stdDev > 15 then max 0 (baseScore - 10) else baseScore
    let finalSummary :=
      if stdDev > 15 then baseSummary ++ ". Torso angle was inconsistent throughout the rep"
      else baseSummary
    mkMS finalScore finalSummary issueFrames

/-- `scoreBarPath(frames, rep)`. -/
def scoreBarPath (frames : List PoseFrame) (rep : DetectedRep) : MetricScore :=
  let idxs := repRange rep
  let xPositions := idxs.map (fun i =>
    (midpoint (lmk (getF frames i) LEFT_SHOULDER) (lmk (getF frames i) RIGHT_SHOULDER)).x)
  if xPositions = [] then ⟨50, .yellow, "Could not assess bar path", [], .high⟩
  else
    let meanX := xPositions.sum / (xPositions.length : ℚ)
    let maxDeviation := listMax (xPositions.map (fun x => |x - meanX|))
    let deviationInches := maxDeviation * 72
    let issueFrames := ((List.range xPositions.length).filter
      (fun i => decide (|xPositions.getD i 0 - meanX| * 72 > 4))).map (fun i => rep.startFrame + i)
    if deviationInches < 2 then
      mkMS (clamp (80 + (1 - deviationInches / 2) * 20) 80 100)
        "Good bar path — minimal horizontal drift" issueFrames
    else if deviationInches < 4 then
      mkMS (clamp (50 + ((4 - deviationInches) / 2) * 29) 50 79)
        "Some horizontal drift in bar path — focus on keeping the bar over midfoot" issueFrames
    else
      mkMS (clamp (49 - (deviationInches - 4) * 5) 0 49)
        "Excessive bar path deviation — the bar shifted significantly forward or back" issueFrames

/-- `scoreSymmetry(frames, rep)`. -/
def scoreSymmetry (P : MathPrims) (frames : List PoseFrame) (rep : DetectedRep) : MetricScore :=
  let f := getF frames rep.bottomFrame
  let ls := lmk f LEFT_SHOULDER
  let rs := lmk f RIGHT_SHOULDER
  let lh := lmk f LEFT_HIP
  let rh := lmk f RIGHT_HIP
  let lk := lmk f LEFT_KNEE
  let rk := lmk f RIGHT_KNEE
  let la := lmk f LEFT_ANKLE
  let ra := lmk f RIGHT_ANKLE
  let hipHeightDiff := |lh.y - rh.y|
  let leftKneeAngle := angleBetween P lh lk la
  let rightKneeAngle := angleBetween P rh rk ra
  let kneeAngleDiff := |leftKneeAngle - rightKneeAngle|
  let avgKneeAngle := (leftKneeAngle + rightKneeAngle) / 2
  let kneeAnglePct := if avgKneeAngle > 0 then kneeAngleDiff / avgKneeAngle else 0
  let shoulderHeightDiff := |ls.y - rs.y|
  let bodyHeight := |(ls.y + rs.y) / 2 - (la.y + ra.y) / 2|
  let hipPct := if bodyHeight > 0 then hipHeightDiff / bodyHeight else 0
  let shoulderPct := if bodyHeight > 0 then shoulderHeightDiff / bodyHeight else 0
  let avgAsymmetry := (hipPct + kneeAnglePct + shoulderPct) / 3
  if avgAsymmetry < 0.05 then
    mkMS (clamp (80 + (1 - avgAsymmetry / 0.05) * 20) 80 100)
      "Good symmetry — both sides moved evenly" []
  else if avgAsymmetry < 0.1 then
    mkMS (clamp (50 + ((0.1 - avgAsymmetry) / 0.05) * 29) 50 79)
      "Minor asymmetry detected — one side is working slightly harder" [rep.bottomFrame]
  else
    mkMS (clamp (49 - (avgAsymmetry - 0.1) * 200) 0 49)
      "Significant asymmetry — noticeable imbalance between left and right sides" [rep.bottomFrame]

/-- `scoreButtWink(frames, rep)`. -/
def scoreButtWink (P : MathPrims) (frames : List PoseFrame) (rep : DetectedRep) : MetricScore :=
  let bottomIdx := rep.bottomFrame
  -- Math.floor((end − start) * 0.15) = (end − start) * 3 / 20 in ℕ
  let windowSize := max 1 ((rep.endFrame - rep.startFrame) * 3 / 20)
  let approachIdx := max rep.startFrame (bottomIdx - 2 * windowSize)
  let approachStop := min (bottomIdx - windowSize) rep.endFrame
  let approachIdxs := List.range' approachIdx (approachStop - approachIdx)
  let bottomStart := max rep.startFrame (bottomIdx - windowSize)
  let bottomEnd := min rep.endFrame (bottomIdx + windowSize)
  let bottomIdxs := List.range' bottomStart (bottomEnd + 1 - bottomStart)
  let approachAngles := approachIdxs.map (fun i => spineAngle P (getF frames i))
  let bottomAngles := bottomIdxs.map (fun i => spineAngle P (getF frames i))
  if approachAngles = [] ∨ bottomAngles = [] then
    ⟨75, .yellow, "Could not fully assess butt wink", [], .high⟩
  else
    let approachAngle := approachAngles.sum / (approachAngles.length : ℚ)
    let maxBottomAngle := listMax bottomAngles
    let angleIncrease := max 0 (maxBottomAngle - approachAngle)
    if angleIncrease < 10 then
      mkMS (clamp (80 + (1 - angleIncrease / 10) * 20) 80 100)
        "Good pelvic control — minimal butt wink at the bottom" []
    else if angleIncrease < 15 then
      mkMS (clamp (50 + ((15 - angleIncrease) / 5) * 29) 50 79)
        "Moderate butt wink — some posterior pelvic tilt at depth" bottomIdxs
    else
      mkMS (clamp (49 - (angleIncrease - 15) * 3) 0 49)
        "Significant butt wink — pelvis tucks under at the bottom, risking lower back strain" bottomIdxs

/-- `scoreTempo(frames, rep)`. -/
def scoreTempo (frames : List PoseFrame) (rep : DetectedRep) : MetricScore :=
  let startTime := (getF frames rep.startFrame).timestamp
  let bottomTime := (getF frames rep.bottomFrame).timestamp
  let endTime := (getF frames rep.endFrame).timestamp
  let ecc := bottomTime - startTime
  let con := endTime - bottomTime
  let total := endTime - startTime
  let s1 : ℚ := 100
  let s2 := if total < 1 then min s1 30 else s1
  let s3 :=
    if ecc < 1 then min s2 60
    else if 1.5 ≤ ecc ∧ ecc ≤ 4 then s2
    else if ecc > 4 then min s2 70
    else s2
  let s4 :=
    if con < 0.8 then min s3 65
    else if con > 2.5 ∧ con ≤ 3 then min s3 75
    else if con > 3 then min s3 60
    else s3
  let s5 :=
    if ecc > 0 ∧ con > 0 then
      if 1.2 ≤ ecc / con ∧ ecc / con ≤ 2.5 then s4
      else if ecc / con < 1 then min s4 65
      else s4
    else s4
  let issueFrames := if total < 1 then repRange rep else []
  let issues : List String :=
    (if total < 1 then ["rep completed too quickly"] else []) ++
    (if ecc < 1 then ["descent too fast (< 1s)"]
     else if 1.5 ≤ ecc ∧ ecc ≤ 4 then []
     else if ecc > 4 then ["descent very slow"]
     else []) ++
    (if con < 0.8 then ["ascent very fast"]
     else if con > 2.5 ∧ con ≤ 3 then ["ascent slightly slow"]
     else if con > 3 then ["ascent too slow (> 3s)"]
     else []) ++
    (if ecc > 0 ∧ con > 0 then
      if 1.2 ≤ ecc / con ∧ ecc / con ≤ 2.5 then []
      else if ecc / con < 1 then ["concentric slower than eccentric"]
      else []
     else [])
  let summary :=
    if issues = [] then
      "Good tempo — " ++ toFixed1 ecc ++ "s down, " ++ toFixed1 con ++ "s up"
    else
      "Tempo: " ++ toFixed1 ecc ++ "s down, " ++ toFixed1 con ++ "s up — " ++
        String.intercalate ", " issues
  mkMS s5 summary issueFrames

/-- `scoreHeelRise(frames, rep)`. -/
def scoreHeelRise (frames : List PoseFrame) (rep : DetectedRep) : MetricScore :=
  let startF := getF frames rep.startFrame
  let avgHeelStart := ((lmk startF LEFT_HEEL).y + (lmk startF RIGHT_HEEL).y) / 2
  let rise := fun (i : ℕ) =>
    avgHeelStart - ((lmk (getF frames i) LEFT_HEEL).y + (lmk (getF frames i) RIGHT_HEEL).y) / 2
  let idxs := repRange rep
  let maxRise := (idxs.map rise).foldl max 0
  let issueFrames := idxs.filter (fun i => decide (rise i > 0.015))
  if maxRise < 0.015 then
    mkMS (clamp (80 + (1 - maxRise / 0.015) * 20) 80 100)
      "Good heel contact — feet stayed flat throughout the squat" issueFrames
  else if maxRise < 0.03 then
    mkMS (clamp (50 + ((0.03 - maxRise) / 0.015) * 29) 50 79)
      "Minor heel rise detected — work on ankle mobility or try heel-elevated shoes" issueFrames
  else
    mkMS (clamp (49 - (maxRise - 0.03) * 500) 0 49)
      "Significant heel rise — heels lifted off the ground during the squat" issueFrames

/-- `scoreStanceWidth(frames, rep)`. -/
def scoreStanceWidth (frames : List PoseFrame) (rep : DetectedRep) : MetricScore :=
  let f := getF frames rep.startFrame
  let ankleWidth := |(lmk f LEFT_ANKLE).x - (lmk f RIGHT_ANKLE).x|
  let hipWidth := |(lmk f LEFT_HIP).x - (lmk f RIGHT_HIP).x|
  if hipWidth < 0.01 then
    ⟨75, .yellow, "Could not assess stance width — hip width too small to measure", [], .high⟩
  else
    let r := ankleWidth / hipWidth
    if 1.2 ≤ r ∧ r ≤ 1.8 then
      mkMS (clamp (80 + (1 - |r - 1.5| / 0.3) * 20) 80 100)
        ("Good stance width — ankles are " ++ toFixed1 r ++ "x hip width") []
    else if (1.1 ≤ r ∧ r < 1.2) ∨ (1.8 < r ∧ r ≤ 2.0) then
      mkMS (clamp (50 + 29 * (1 - (min |r - 1.2| |r - 1.8|) / 0.2)) 50 79)
        (if r < 1.2 then "Stance slightly narrow — try widening your feet a bit"
         else "Stance slightly wide — consider narrowing your feet slightly") [rep.startFrame]
    else
      mkMS (if r < 1.1 then clamp (49 - (1.1 - r) * 200) 0 49
            else clamp (49 - (r - 2.0) * 100) 0 49)
        (if r < 1.1 then "Stance too narrow — feet are closer than hip width, limiting stability"
         else "Stance very wide — this may strain your inner thighs and limit depth") [rep.startFrame]

/-- `scoreHipShift(frames, rep)`. -/
def scoreHipShift (frames : List PoseFrame) (rep : DetectedRep) : MetricScore :=
  let idxs := List.range' rep.bottomFrame (rep.endFrame + 1 - rep.bottomFrame)
  let xPositions := idxs.map (fun i =>
    (midpoint (lmk (getF frames i) LEFT_HIP) (lmk (getF frames i) RIGHT_HIP)).x)
  if xPositions.length < 2 then ⟨75, .yellow, "Could not assess hip shift", [], .high⟩
  else
    let meanX := xPositions.sum / (xPositions.length : ℚ)
    let maxDeviation := listMax (xPositions.map (fun x => |x - meanX|))
    let deviationInches := maxDeviation * 72
    let issueFrames := ((List.range xPositions.length).filter
      (fun i => decide (|xPositions.getD i 0 - meanX| * 72 > 1.5))).map (fun i => rep.bottomFrame + i)
    if deviationInches < 1.5 then
      mkMS (clamp (80 + (1 - deviationInches / 1.5) * 20) 80 100)
        "Good hip stability — hips stayed centered during ascent" issueFrames
    else if deviationInches < 3 then
      mkMS (clamp (50 + ((3 - deviationInches) / 1.5) * 29) 50 79)
        "Minor hip shift detected — hips drifted laterally during ascent" issueFrames
    else
      mkMS (clamp (49 - (deviationInches - 3) * 5) 0 49)
        "Significant hip shift — hips swayed to one side, suggesting a strength imbalance" issueFrames

/-- `scoreKneeValgus(frames, rep)`. -/
def scoreKneeValgus (P : MathPrims) (frames : List PoseFrame) (rep : DetectedRep) : MetricScore :=
  let valgus := fun (i : ℕ) =>
    let f := getF frames i
    let lh := lmk f LEFT_HIP
    let lk := lmk f LEFT_KNEE
    let la := lmk f LEFT_ANKLE
    let rh := lmk f RIGHT_HIP
    let rk := lmk f RIGHT_KNEE
    let ra := lmk f RIGHT_ANKLE
    let leftInward := lk.x - (lh.x + la.x) / 2
    let rightInward := (rh.x + ra.x) / 2 - rk.x
    let hipToAnkleY := |lh.y - la.y|
    let leftAngle := if hipToAnkleY > 0 then P.atan2deg |leftInward| hipToAnkleY else 0
    let rightAngle := if hipToAnkleY > 0 then P.atan2deg |rightInward| hipToAnkleY else 0
    max (if leftInward > 0 then leftAngle else 0) (if rightInward > 0 then rightAngle else 0)
  let active := (repRange rep).filter (isActiveFrame frames rep)
  let maxValgusAngle := (active.map valgus).foldl max 0
  let issueFrames := active.filter (fun i => decide (valgus i > 10))
  if maxValgusAngle < 10 then
    mkMS (clamp (80 + (1 - maxValgusAngle / 10) * 20) 80 100)
      "Good knee alignment — knees tracked in line with toes" issueFrames
  else if maxValgusAngle < 15 then
    mkMS (clamp (50 + ((15 - maxValgusAngle) / 5) * 29) 50 79)
      "Minor knee valgus — knees collapsed slightly inward" issueFrames
  else
    mkMS (clamp (49 - (maxValgusAngle - 15) * 3) 0 49)
      "Significant knee valgus — knees caved inward, increasing injury risk" issueFrames

/-- `scoreKneeTravel(frames, rep)`. -/
def scoreKneeTravel (frames : List PoseFrame) (rep : DetectedRep) : MetricScore :=
  let f := getF frames rep.bottomFrame
  let leftTravel := (lmk f LEFT_KNEE).x - (lmk f LEFT_FOOT_INDEX).x
  let rightTravel := (lmk f RIGHT_KNEE).x - (lmk f RIGHT_FOOT_INDEX).x
  let maxTravel := max |leftTravel| |rightTravel|
  let travelInches := maxTravel * 72
  if travelInches < 2 then
    mkMS (clamp (80 + (1 - travelInches / 2) * 20) 80 100)
      "Good knee position — knees stayed near or behind toe line" []
  else if travelInches < 4 then
    mkMS (clamp (50 + ((4 - travelInches) / 2) * 29) 50 79)
      "Moderate knee travel — knees tracked slightly past toes" [rep.bottomFrame]
  else
    mkMS (clamp (49 - (travelInches - 4) * 5) 0 49)
      "Excessive forward knee travel — knees extended well past toes, increasing knee stress"
      [rep.bottomFrame]

/-- `scoreDepthConsistency(frames, allReps)` — the cross-rep metric. -/
def scoreDepthConsistency (P : MathPrims) (frames : List PoseFrame)
    (allReps : List DetectedRep) : MetricScore :=
  if allReps.length < 2 then
    ⟨100, .green, "Single rep — consistency not applicable", [], .high⟩
  else
    let bottomDepths := allReps.map (fun rep => hipYAt frames rep.bottomFrame)
    let mean := bottomDepths.sum / (bottomDepths.length : ℚ)
    let variance := (bottomDepths.map (fun v => (v - mean) ^ 2)).sum / (bottomDepths.length : ℚ)
    let stdDev := P.sqrt variance
    let cv := if mean > 0 then stdDev / mean else 0
    if cv < 0.02 then
      mkMS (clamp (80 + (1 - cv / 0.02) * 20) 80 100)
        "Excellent depth consistency — bottom position was very consistent across reps" []
    else if cv < 0.05 then
      let shallowest := bottomDepths.indexOf (listMin bottomDepths)
      mkMS (clamp (50 + ((0.05 - cv) / 0.03) * 29) 50 79)
        "Minor depth variation — some reps were deeper than others"
        [(allReps.getD shallowest ⟨0, 0, 0⟩).bottomFrame]
    else
      mkMS (clamp (49 - (cv - 0.05) * 500) 0 49)
        "Inconsistent depth — significant variation in bottom position between reps"
        (allReps.map (·.bottomFrame))

/-- `scoreThoracicRounding(frames, rep)`. -/
def scoreThoracicRounding (P : MathPrims) (frames : List PoseFrame) (rep : DetectedRep) : MetricScore :=
  let rounding := fun (i : ℕ) =>
    let f := getF frames i
    let shoulderMid := midpoint (lmk f LEFT_SHOULDER) (lmk f RIGHT_SHOULDER)
    let hipMid := midpoint (lmk f LEFT_HIP) (lmk f RIGHT_HIP)
    let nose := lmk f NOSE
    let trunkAngle := P.atan2deg |shoulderMid.x - hipMid.x| |shoulderMid.y - hipMid.y|
    let upperAngle := P.atan2deg |nose.x - shoulderMid.x| |nose.y - shoulderMid.y|
    max 0 (upperAngle - trunkAngle)
  let active := (repRange rep).filter (isActiveFrame frames rep)
  let maxRounding := (active.map rounding).foldl max 0
  let issueFrames := active.filter (fun i => decide (rounding i > 20))
  if maxRounding < 15 then
    mkMS (clamp (80 + (1 - maxRounding / 15) * 20) 80 100)
      "Good upper back position — thoracic spine stayed neutral" issueFrames
  else if maxRounding < 25 then
    mkMS (clamp (50 + ((25 - maxRounding) / 10) * 29) 50 79)
      "Moderate thoracic rounding — upper back collapsed slightly under load" issueFrames
  else
    mkMS (clamp (49 - (maxRounding - 25) * 2) 0 49)
      "Significant thoracic rounding — upper back rounded excessively" issueFrames

/-- The `for (i = bottom; i < end − chunk; i += max(1, ⌊chunk/2⌋))` index
sequence of `scoreHipRiseRate`. -/
def stepRange (step lo hi : ℕ) : List ℕ :=
  if lo < hi then lo :: stepRange step (lo + max 1 step) hi else []
termination_by hi - lo
decreasing_by omega

/-- `scoreHipRiseRate(frames, rep)`. -/
def scoreHipRiseRate (frames : List PoseFrame) (rep : DetectedRep) : MetricScore :=
  let ascentFrames := rep.endFrame - rep.bottomFrame
  if ascentFrames < 3 then
    ⟨75, .yellow, "Could not assess hip rise rate — ascent too short", [], .high⟩
  else
    let chunkSize := max 2 (ascentFrames / 5)
    let starts := stepRange (chunkSize / 2) rep.bottomFrame (rep.endFrame - chunkSize)
    let res := starts.foldl (fun (acc : ℚ × List ℕ) i =>
      let j := min (i + chunkSize) rep.endFrame
      let hipRise := hipYAt frames i - hipYAt frames j
      let shoulderRise := shoulderYAt frames i - shoulderYAt frames j
      if shoulderRise > 0.001 then
        let q := hipRise / shoulderRise
        (if q > acc.1 then q else acc.1, if q > 1.5 then acc.2 ++ [i] else acc.2)
      else if hipRise > 0.01 then (max acc.1 3, acc.2 ++ [i])
      else acc) (0, [])
    let maxRateR := res.1
    let issueFrames := res.2
    if maxRateR < 1.3 then
      mkMS (clamp (80 + (1 - maxRateR / 1.3) * 20) 80 100)
        "Good ascent mechanics — hips and shoulders rose together" issueFrames
    else if maxRateR < 1.8 then
      mkMS (clamp (50 + ((1.8 - maxRateR) / 0.5) * 29) 50 79)
        "Hips rising slightly ahead of chest — mild good-morning tendency" issueFrames
    else
      mkMS (clamp (49 - (maxRateR - 1.8) * 15) 0 49)
        "Good-morning pattern — hips shot up while chest stayed low, risking lower back strain"
        issueFrames

/-- `scoreReversalControl(frames, rep)`. -/
def scoreReversalControl (frames : List PoseFrame) (rep : DetectedRep) : MetricScore :=
  let bottomIdx := rep.bottomFrame
  let windowSize := max 2 ((rep.endFrame - rep.startFrame) / 10)
  let preStart := max rep.startFrame (bottomIdx - windowSize)
  let postEnd := min rep.endFrame (bottomIdx + windowSize)
  if postEnd - preStart < 3 then
    ⟨75, .yellow, "Could not assess reversal control", [], .high⟩
  else
    let velAt := fun (i : ℕ) =>
      let dt := (getF frames (i + 1)).timestamp - (getF frames i).timestamp
      if dt > 0 then some ((hipYAt frames (i + 1) - hipYAt frames i) / dt) else none
    let preVelocities := (List.range' preStart (bottomIdx - preStart)).filterMap velAt
    let postVelocities := (List.range' bottomIdx (postEnd - bottomIdx)).filterMap velAt
    if preVelocities = [] ∨ postVelocities = [] then
      ⟨75, .yellow, "Could not assess reversal control", [], .high⟩
    else
      let avgPreVel := preVelocities.sum / (preVelocities.length : ℚ)
      let avgPostVel := postVelocities.sum / (postVelocities.length : ℚ)
      let velocityChange := |avgPreVel - avgPostVel|
      if velocityChange < 0.3 then
        mkMS (clamp (80 + (1 - velocityChange / 0.3) * 20) 80 100)
          "Good reversal control — smooth, controlled transition at the bottom" []
      else if velocityChange < 0.6 then
        mkMS (clamp (50 + ((0.6 - velocityChange) / 0.3) * 29) 50 79)
          "Moderate bounce at bottom — try pausing briefly at the bottom for more control"
          [bottomIdx]
      else
        mkMS (clamp (49 - (velocityChange - 0.6) * 30) 0 49)
          "Hard bounce at bottom — rapid direction change increases injury risk"
          (List.range' preStart (postEnd + 1 - preStart))

/-- `scoreStanceWidthShift(frames, rep)`. -/
def scoreStanceWidthShift (frames : List PoseFrame) (rep : DetectedRep) : MetricScore :=
  let startF := getF frames rep.startFrame
  let startAnkleWidth := |(lmk startF LEFT_ANKLE).x - (lmk startF RIGHT_ANKLE).x|
  if startAnkleWidth < 0.01 then
    ⟨75, .yellow, "Could not assess stance width shift", [], .high⟩
  else
    let shiftPct := fun (i : ℕ) =>
      let w := |(lmk (getF frames i) LEFT_ANKLE).x - (lmk (getF frames i) RIGHT_ANKLE).x|
      |w - startAnkleWidth| / startAnkleWidth
    let idxs := repRange rep
    let maxShiftPct := (idxs.map shiftPct).foldl max 0
    let issueFrames := idxs.filter (fun i => decide (shiftPct i > 0.1))
    if maxShiftPct < 0.08 then
      mkMS (clamp (80 + (1 - maxShiftPct / 0.08) * 20) 80 100)
        "Good stance stability — feet stayed in position throughout the rep" issueFrames
    else if maxShiftPct < 0.15 then
      mkMS (clamp (50 + ((0.15 - maxShiftPct) / 0.07) * 29) 50 79)
        "Minor stance shift — feet drifted slightly during the rep"
        (issueFrames ++ [rep.bottomFrame])
    else
      mkMS (clamp (49 - (maxShiftPct - 0.15) * 200) 0 49)
        "Significant stance shift — feet moved noticeably wider or narrower mid-rep" issueFrames

/-- `scoreHeadPosition(frames, rep)`. -/
def scoreHeadPosition (P : MathPrims) (frames : List PoseFrame) (rep : DetectedRep) : MetricScore :=
  let headAngle := fun (i : ℕ) =>
    let f := getF frames i
    let nose := lmk f NOSE
    let shoulderMid := midpoint (lmk f LEFT_SHOULDER) (lmk f RIGHT_SHOULDER)
    P.atan2deg |nose.x - shoulderMid.x| |nose.y - shoulderMid.y|
  let active := (repRange rep).filter (isActiveFrame frames rep)
  let maxDeviation := (active.map headAngle).foldl max 0
  let issueFrames := active.filter (fun i => decide (headAngle i > 35))
  if maxDeviation < 25 then
    mkMS (clamp (80 + (1 - maxDeviation / 25) * 20) 80 100)
      "Good head position — neck stayed in neutral alignment" issueFrames
  else if maxDeviation < 40 then
    mkMS (clamp (50 + ((40 - maxDeviation) / 15) * 29) 50 79)
      "Head position slightly off — avoid excessive neck extension or flexion" issueFrames
  else
    mkMS (clamp (49 - (maxDeviation - 40) * 2) 0 49)
      "Poor head position — neck was excessively extended or flexed, risking cervical strain"
      issueFrames

-- ─── Aggregation ──────────────────────────────────────────────────────────

/-- `averageMetricScores(scores)`.  The JS `sort((a, b) => a.score - b.score)`
is the (mandated-stable) ascending sort by score, which `insertionSort`
with `≤` on scores reproduces exactly. -/
def averageMetricScores (scores : List MetricScore) : MetricScore :=
  if scores = [] then ⟨0, .red, "No reps detected", [], .high⟩
  else
    let avgScore := jsRound ((((scores.map (·.score)).sum : ℤ) : ℚ) / (scores.length : ℚ))
    let allIssueFrames := (scores.map (·.issueFrames)).flatten
    let sorted := scores.insertionSort (fun a b => a.score ≤ b.score)
    let medianSummary := (sorted.getD (sorted.length / 2) dfltMS).summary
    let goodReps := (scores.filter (fun s => decide (s.score ≥ 80))).length
    let summary :=
      if scores.length > 1 then
        medianSummary ++ " (" ++ toString goodReps ++ "/" ++ toString scores.length ++
          " reps rated good)"
      else medianSummary
    ⟨avgScore, getRating avgScore, summary, allIssueFrames, (scores.headD dfltMS).confidence⟩

-- ─── Main analysis ────────────────────────────────────────────────────────

/-- The message of the no-reps-detected error thrown by `analyzeSquat`. -/
def noRepsMsg : String :=
  "Could not detect any squat reps. Make sure your video shows at least one full squat repetition."

/-- The confidence stamping `repData[key].confidence = getMetricConfidence(key, angle)`. -/
def stampConf (angle : CameraAngle) (key : String) (ms : MetricScore) : MetricScore :=
  { ms with confidence := getMetricConfidence key angle }

/-- The fallback bottom search of `analyzeSquat`: `peakY` starts at
`-Infinity`, so the first element is always taken and later elements only
on strict improvement (first index attaining the maximum). -/
def hipArgmax (frames : List PoseFrame) : ℕ :=
  let vals := hipYValues frames
  ((vals.enum.drop 1).foldl (fun acc p => if p.2 > acc.2 then p else acc) (0, vals.headD 0)).1

/-- One `RepData` record of `analyzeSquat`, confidence already stamped for
the video's camera angle.  `dcStamped` is the shared cross-rep
depth-consistency score (a single mutable object in the source, stamped in
place, hence identical in every rep and in the overall result). -/
def mkRepData (P : MathPrims) (frames : List PoseFrame) (angle : CameraAngle)
    (dcStamped : MetricScore) (idx : ℕ) (rep : DetectedRep) : RepData :=
  { repNumber := idx + 1
    startFrame := rep.startFrame
    endFrame := rep.endFrame
    bottomFrame := rep.bottomFrame
    depth := stampConf angle "depth" (scoreDepth P frames rep)
    kneeTracking := stampConf angle "kneeTracking" (scoreKneeTracking frames rep)
    backAngle := stampConf angle "backAngle" (scoreBackAngle P frames rep)
    barPath := stampConf angle "barPath" (scoreBarPath frames rep)
    symmetry := stampConf angle "symmetry" (scoreSymmetry P frames rep)
    buttWink := stampConf angle "buttWink" (scoreButtWink P frames rep)
    tempo := stampConf angle "tempo" (scoreTempo frames rep)
    heelRise := stampConf angle "heelRise" (scoreHeelRise frames rep)
    stanceWidth := stampConf angle "stanceWidth" (scoreStanceWidth frames rep)
    hipShift := stampConf angle "hipShift" (scoreHipShift frames rep)
    kneeValgus := stampConf angle "kneeValgus" (scoreKneeValgus P frames rep)
    kneeTravel := stampConf angle "kneeTravel" (scoreKneeTravel frames rep)
    depthConsistency := dcStamped
    thoracicRounding := stampConf angle "thoracicRounding" (scoreThoracicRounding P frames rep)
    hipRiseRate := stampConf angle "hipRiseRate" (scoreHipRiseRate frames rep)
    reversalControl := stampConf angle "reversalControl" (scoreReversalControl frames rep)
    stanceWidthShift := stampConf angle "stanceWidthShift" (scoreStanceWidthShift frames rep)
    headPosition := stampConf angle "headPosition" (scoreHeadPosition P frames rep) }

/-- The body of the success path of `analyzeSquat`, applied to the list of
reps chosen for analysis (detected, or the single whole-clip fallback). -/
def buildResult (P : MathPrims) (frames : List PoseFrame)
    (exerciseType : Option ExerciseType) (cameraAngle : Option CameraAngle)
    (repsToAnalyze : List DetectedRep) : SquatAnalysisResult :=
  let angle := cameraAngle.getD .uncertain
  let dcStamped := stampConf angle "depthConsistency" (scoreDepthConsistency P frames repsToAnalyze)
  let reps := repsToAnalyze.enum.map (fun p => mkRepData P frames angle dcStamped p.1 p.2)
  { reps := reps
    overall :=
      { depth := averageMetricScores (reps.map (·.depth))
        kneeTracking := averageMetricScores (reps.map (·.kneeTracking))
        backAngle := averageMetricScores (reps.map (·.backAngle))
        barPath := averageMetricScores (reps.map (·.barPath))
        symmetry := averageMetricScores (reps.map (·.symmetry))
        buttWink := averageMetricScores (reps.map (·.buttWink))
        tempo := averageMetricScores (reps.map (·.tempo))
        heelRise := averageMetricScores (reps.map (·.heelRise))
        stanceWidth := averageMetricScores (reps.map (·.stanceWidth))
        hipShift := averageMetricScores (reps.map (·.hipShift))
        kneeValgus := averageMetricScores (reps.map (·.kneeValgus))
        kneeTravel := averageMetricScores (reps.map (·.kneeTravel))
        depthConsistency := dcStamped
        thoracicRounding := averageMetricScores (reps.map (·.thoracicRounding))
        hipRiseRate := averageMetricScores (reps.map (·.hipRiseRate))
        reversalControl := averageMetricScores (reps.map (·.reversalControl))
        stanceWidthShift := averageMetricScores (reps.map (·.stanceWidthShift))
        headPosition := averageMetricScores (reps.map (·.headPosition)) }
    repCount := reps.length
    exerciseType := exerciseType
    cameraAngle := cameraAngle }

/-- `analyzeSquat(frames, exerciseType?, cameraAngle?)`.  For an empty
frame list the JS `Math.max()/Math.min()` spread give a `-Infinity` range,
below the 0.005 floor; the `headD 0` defaults of `listMax`/`listMin` give
range 0 there, which lands in the same error branch. -/
def analyzeSquat (P : MathPrims) (frames : List PoseFrame)
    (exerciseType : Option ExerciseType) (cameraAngle : Option CameraAngle) :
    Except String SquatAnalysisResult :=
  let detectedReps := detectReps frames
  if detectedReps.length > 0 then .ok (buildResult P frames exerciseType cameraAngle detectedReps)
  else
    let hipYs := hipYValues frames
    if listMax hipYs - listMin hipYs < 0.005 then .error noRepsMsg
    else .ok (buildResult P frames exerciseType cameraAngle
      [⟨0, frames.length - 1, hipArgmax frames⟩])

-- ─── Trim frames to rep range ─────────────────────────────────────────────

structure TrimResult where
  frames : List PoseFrame
  startTimestamp : ℚ
  endTimestamp : ℚ
deriving DecidableEq, Repr

/-- `trimFramesToReps(frames)`.  `slice(a, b)` is `drop a` + `take (b - a)`.
The spec guarantees strictly increasing timestamps, so `avgFrameDuration`
is positive wherever the operation is specified. -/
def trimFramesToReps (frames : List PoseFrame) : TrimResult :=
  if frames.length = 0 then ⟨frames, 0, 0⟩
  else
    let reps := detectReps frames
    if reps = [] then
      ⟨frames, (getF frames 0).timestamp, (getF frames (frames.length - 1)).timestamp⟩
    else
      let firstRep := reps.headD ⟨0, 0, 0⟩
      let lastRep := reps.getLastD ⟨0, 0, 0⟩
      let avgFrameDuration :=
        if frames.length > 1 then
          ((getF frames (frames.length - 1)).timestamp - (getF frames 0).timestamp) /
            ((frames.length : ℚ) - 1)
        else 1 / 30
      let bufferFrames : ℤ := ⌈(2.5 : ℚ) / avgFrameDuration⌉
      let trimStart : ℕ := (max 0 ((firstRep.startFrame : ℤ) - bufferFrames)).toNat
      let trimEnd : ℤ := min ((frames.length : ℤ) - 1) ((lastRep.endFrame : ℤ) + bufferFrames)
      ⟨(frames.drop trimStart).take (trimEnd + 1 - trimStart).toNat,
       (getF frames trimStart).timestamp, (getF frames trimEnd.toNat).timestamp⟩

-- ─── Camera angle detection ───────────────────────────────────────────────

/-- Both shoulders at visibility ≥ 0.3 (the stability test of
`detectCameraAngle`). -/
def bothShouldersVisible (f : PoseFrame) : Bool :=
  decide (¬ ((lmk f LEFT_SHOULDER).visibility < 0.3 ∨ (lmk f RIGHT_SHOULDER).visibility < 0.3))

/-- The first index starting a run of 5 consecutive shoulder-visible frames
(the `stableStart` scan; `-1` becomes `none`). -/
def findStableStart (frames : List PoseFrame) : Option ℕ :=
  (List.range (frames.length - 4)).find?
    (fun i => (List.range' i 5).all (fun j => bothShouldersVisible (getF frames j)))

/-- The per-frame classification of the sampling loop; `none` models the
`continue` for frames with a poorly visible shoulder. -/
def classifyFrame (f : PoseFrame) : Option CameraAngle :=
  if (lmk f LEFT_SHOULDER).visibility < 0.3 ∨ (lmk f RIGHT_SHOULDER).visibility < 0.3 then none
  else
    let shoulderSpread := |(lmk f LEFT_SHOULDER).x - (lmk f RIGHT_SHOULDER).x|
    let faceVis := ((lmk f NOSE).visibility + (lmk f LEFT_EYE).visibility +
      (lmk f RIGHT_EYE).visibility) / 3
    if shoulderSpread < 0.08 then
      let leftVis := ((lmk f LEFT_SHOULDER).visibility + (lmk f LEFT_ELBOW).visibility +
        (lmk f LEFT_WRIST).visibility) / 3
      let rightVis := ((lmk f RIGHT_SHOULDER).visibility + (lmk f RIGHT_ELBOW).visibility +
        (lmk f RIGHT_WRIST).visibility) / 3
      some (if leftVis ≥ rightVis then .left_side else .right_side)
    else if shoulderSpread > 0.20 then some (if faceVis > 0.5 then .frontal else .rear)
    else some .diagonal

/-- The vote list built from up to 15 sample frames at the stable window. -/
def cameraVotes (frames : List PoseFrame) (s : ℕ) : List CameraAngle :=
  ((frames.drop s).take 15).filterMap classifyFrame

/-- Distinct elements of a list in order of first occurrence (the key
order of the JS `Map` that tallies the votes). -/
def firstOccs : List CameraAngle → List CameraAngle
  | [] => []
  | a :: l => a :: firstOccs (l.filter (fun b => b ≠ a))
termination_by l => l.length
decreasing_by simpa using Nat.lt_succ_of_le (List.length_filter_le _ _)

/-- `voteCounts` as an insertion-ordered association list. -/
def mapEntries (votes : List CameraAngle) : List (CameraAngle × ℕ) :=
  (firstOccs votes).map (fun a => (a, votes.count a))

/-- The `voteCounts.forEach` fold keeping the first strictly-best entry. -/
def bestVote (votes : List CameraAngle) : CameraAngle × ℕ :=
  (mapEntries votes).foldl (fun best p => if p.2 > best.2 then p else best) (.uncertain, 0)

/-- `detectCameraAngle(frames)`.  The aggregates that only feed the
console summary are elided (no observable effect on the result). -/
def detectCameraAngle (frames : List PoseFrame) : CameraAngle :=
  if frames.length < 5 then .uncertain
  else
    match findStableStart frames with
    | none => .uncertain
    | some s =>
      let votes := cameraVotes frames s
      if votes = [] then .uncertain
      else
        let best := bestVote votes
        if ((best.2 : ℚ) / (votes.length : ℚ)) ≥ 0.6 then best.1 else .uncertain

-- ─── Exercise type detection ──────────────────────────────────────────────

/-- Both hips at visibility ≥ 0.3 (the `continue` filter of
`detectExerciseType`). -/
def bothHipsVisible (f : PoseFrame) : Bool :=
  decide (¬ ((lmk f LEFT_HIP).visibility < 0.3 ∨ (lmk f RIGHT_HIP).visibility < 0.3))

/-- The frames with usable hip data. -/
def usableFrames (frames : List PoseFrame) : List PoseFrame :=
  frames.filter bothHipsVisible

/-- The 0, 1 or 2 knee angles a usable frame contributes (left leg first,
each gated on knee and ankle visibility > 0.3). -/
def kneeAnglesOf (P : MathPrims) (f : PoseFrame) : List ℚ :=
  (if (lmk f LEFT_KNEE).visibility > 0.3 ∧ (lmk f LEFT_ANKLE).visibility > 0.3 then
    [angleBetween P (lmk f LEFT_HIP) (lmk f LEFT_KNEE) (lmk f LEFT_ANKLE)] else []) ++
  (if (lmk f RIGHT_KNEE).visibility > 0.3 ∧ (lmk f RIGHT_ANKLE).visibility > 0.3 then
    [angleBetween P (lmk f RIGHT_HIP) (lmk f RIGHT_KNEE) (lmk f RIGHT_ANKLE)] else [])

/-- `detectExerciseType(frames)`. -/
def detectExerciseType (P : MathPrims) (frames : List PoseFrame) : ExerciseType :=
  if frames.length < 4 then .unknown
  else
    let usable := usableFrames frames
    let hipYs := usable.map (fun f => ((lmk f LEFT_HIP).y + (lmk f RIGHT_HIP).y) / 2)
    let hipXs := usable.map (fun f => ((lmk f LEFT_HIP).x + (lmk f RIGHT_HIP).x) / 2)
    let kneeAngles := (usable.map (kneeAnglesOf P)).flatten
    if hipYs.length < 2 then .unknown
    else
      let hipYRange := listMax hipYs - listMin hipYs
      let hipXRange := listMax hipXs - listMin hipXs
      let kneeAngleRange := if kneeAngles ≠ [] then listMax kneeAngles - listMin kneeAngles else 0
      if hipYRange > 0.1 ∧ kneeAngleRange > 30 then .squat
      else if hipYRange > 0.08 ∧ hipXRange > 0.05 ∧ kneeAngleRange < 30 then .deadlift
      else if hipYRange > 0.05 then .squat
      else .other

-- ─── Outlier rejection (pose-detection signal conditioner) ────────────────

/-- `estimateBodyHeight(landmarks)`. -/
def estimateBodyHeight (landmarks : List Landmark) : ℚ :=
  let shoulderY := ((landmarks.getD LEFT_SHOULDER dfltLm).y +
    (landmarks.getD RIGHT_SHOULDER dfltLm).y) / 2
  let ankleY := ((landmarks.getD LEFT_ANKLE dfltLm).y +
    (landmarks.getD RIGHT_ANKLE dfltLm).y) / 2
  |ankleY - shoulderY|

/-- `rejectOutliers(rawLandmarks, prevLandmarks, bodyHeight)`.  The `map`
with the `prevLandmarks[i]` lookup is an indexwise zip; the caller always
passes two aligned 33-landmark lists. -/
def rejectOutliers (P : MathPrims) (rawLandmarks : List Landmark)
    (prevLandmarks : Option (List Landmark)) (bodyHeight : ℚ) : List Landmark :=
  match prevLandmarks with
  | none => rawLandmarks
  | some prev =>
    if bodyHeight ≤ 0 then rawLandmarks
    else
      let threshold := bodyHeight * 0.15
      rawLandmarks.zipWith (fun lm pv =>
        let dist := P.sqrt ((lm.x - pv.x) * (lm.x - pv.x) + (lm.y - pv.y) * (lm.y - pv.y))
        if dist > threshold then { pv with visibility := lm.visibility } else lm) prev

-- ─── Claim-level helper definitions ───────────────────────────────────────

/-- The 18 per-rep metric scores of one `RepData`, in declaration order. -/
def repMetricList (r : RepData) : List MetricScore :=
  [r.depth, r.kneeTracking, r.backAngle, r.barPath, r.symmetry, r.buttWink, r.tempo,
   r.heelRise, r.stanceWidth, r.hipShift, r.kneeValgus, r.kneeTravel, r.depthConsistency,
   r.thoracicRounding, r.hipRiseRate, r.reversalControl, r.stanceWidthShift, r.headPosition]

/-- The 18 overall metric scores of a result. -/
def overallMetricList (o : OverallScores) : List MetricScore :=
  [o.depth, o.kneeTracking, o.backAngle, o.barPath, o.symmetry, o.buttWink, o.tempo,
   o.heelRise, o.stanceWidth, o.hipShift, o.kneeValgus, o.kneeTravel, o.depthConsistency,
   o.thoracicRounding, o.hipRiseRate, o.reversalControl, o.stanceWidthShift, o.headPosition]

/-- Every `MetricScore` an analysis result contains: the 18 per-rep metrics
of every rep, followed by the 18 overall metrics. -/
def resultMetricScores (res : SquatAnalysisResult) : List MetricScore :=
  (res.reps.map repMetricList).flatten ++ overallMetricList res.overall

/-- All metric scores produced by a (possibly failed) analysis. -/
def analysisMetricScores (e : Except String SquatAnalysisResult) : List MetricScore :=
  match e with
  | .ok res => resultMetricScores res
  | .error _ => []

/-- The reps of a (possibly failed) analysis. -/
def repsOf (e : Except String SquatAnalysisResult) : List RepData :=
  match e with
  | .ok res => res.reps
  | .error _ => []

/-- The overall depth-consistency entry of a (possibly failed) analysis. -/
def overallDepthConsistencyOf (e : Except String SquatAnalysisResult) : MetricScore :=
  match e with
  | .ok res => res.overall.depthConsistency
  | .error _ => dfltMS

/-- The hip-height range of the whole clip, as tested by the fallback
branch of `analyzeSquat`. -/
def hipRange (frames : List PoseFrame) : ℚ :=
  listMax (hipYValues frames) - listMin (hipYValues frames)

/-- The well-formedness property claimed of every metric score: an
integer score in [0, 100] whose rating is the pure tier function of the
score. -/
def msOk (ms : MetricScore) : Prop :=
  (0 ≤ ms.score ∧ ms.score ≤ 100) ∧ ms.rating = getRating ms.score

-- spec-side definitions for claim C4 (aggregation) ------------------------

/-- Modelled from the spec: the per-rep scores stably sorted by ascending
score (what the JS comparator sort produces). -/
def specSortedByScore (scores : List MetricScore) : List MetricScore :=
  scores.insertionSort (fun a b => a.score ≤ b.score)

/-- Modelled from the spec: the "(k/n reps rated good)" suffix. -/
def specGoodSuffix (scores : List MetricScore) : String :=
  " (" ++ toString ((scores.filter (fun s => decide (s.score ≥ 80))).length) ++ "/" ++
    toString scores.length ++ " reps rated good)"

/-- The aggregation contract of claim C4, parameterised by the index of the
sorted list supplying the representative summary: score is the rounded
mean, summary is that entry's summary (suffixed when more than one rep),
and issueFrames is the plain concatenation in rep order. -/
def aggContract (idx : ℕ) (scores : List MetricScore) (ms : MetricScore) : Prop :=
  ms.score = jsRound ((((scores.map (·.score)).sum : ℤ) : ℚ) / (scores.length : ℚ)) ∧
  ms.summary = ((specSortedByScore scores).getD idx dfltMS).summary ++
    (if scores.length > 1 then specGoodSuffix scores else "") ∧
  ms.issueFrames = (scores.map (·.issueFrames)).flatten

-- spec-side definition for claim C5 (exercise classification) -------------

/-- Modelled from the spec (amended): the classification rules of
`detectExerciseType`, with `unknown` exactly when the clip has fewer than
4 frames or fewer than 2 frames with usable hip data. -/
def specDetectExerciseType (P : MathPrims) (frames : List PoseFrame) : ExerciseType :=
  if frames.length < 4 ∨ (usableFrames frames).length < 2 then .unknown
  else
    let usable := usableFrames frames
    let hipYs := usable.map (fun f => ((lmk f LEFT_HIP).y + (lmk f RIGHT_HIP).y) / 2)
    let hipXs := usable.map (fun f => ((lmk f LEFT_HIP).x + (lmk f RIGHT_HIP).x) / 2)
    let kneeAngles := (usable.map (kneeAnglesOf P)).flatten
    let hipYRange := listMax hipYs - listMin hipYs
    let hipXRange := listMax hipXs - listMin hipXs
    let kneeAngleRange := if kneeAngles ≠ [] then listMax kneeAngles - listMin kneeAngles else 0
    if hipYRange > 0.1 ∧ kneeAngleRange > 30 then .squat
    else if hipYRange > 0.08 ∧ hipXRange > 0.05 ∧ kneeAngleRange < 30 then .deadlift
    else if hipYRange > 0.05 then .squat
    else .other

-- concrete inputs for witnesses and counterexamples -----------------------

/-- A fully visible landmark at a fixed position. -/
def stdLm : Landmark := ⟨0.5, 0.3, 0, 1⟩

/-- 33 copies of `stdLm`. -/
def baseLms : List Landmark := List.replicate 33 stdLm

/-- A frame whose two hip landmarks sit at height `y`. -/
def mkHipFrame (ts y : ℚ) : PoseFrame :=
  ⟨ts, (baseLms.set LEFT_HIP ⟨0.45, y, 0, 1⟩).set RIGHT_HIP ⟨0.55, y, 0, 1⟩⟩

/-- A six-frame clip with a single shallow hip dip: no prominent peak, but
hip range 0.12 > 0.005, so `analyzeSquat` takes the whole-clip fallback. -/
def wFrames : List PoseFrame :=
  ([0.5, 0.55, 0.62, 0.6, 0.55, 0.5] : List ℚ).enum.map
    (fun p => mkHipFrame ((p.1 : ℚ) / 2) p.2)

/-- A six-frame clip with perfectly still hips (range 0). -/
def flatFrames : List PoseFrame :=
  (List.range 6).map (fun i => mkHipFrame ((i : ℚ) / 2) 0.5)

/-- The 10-frame clip refuting claim C9: frames 2.5 s apart (so the trim
buffer is a single frame); the original clip yields one detected rep but
the trimmed clip yields none (the cut raises the surrounding minima, so
the peak loses its prominence). -/
def c9Frames : List PoseFrame :=
  ([3/8, 1, 0, 3/4, 5/8, 3/4, 0, 1/2, 1/4, 3/8] : List ℚ).enum.map
    (fun p => mkHipFrame (2.5 * (p.1 : ℚ)) p.2)

/-- A five-frame clip whose every frame classifies as frontal (shoulder
spread 0.4, face fully visible). -/
def camFrames : List PoseFrame :=
  (List.range 5).map (fun i =>
    ⟨(i : ℚ) / 30,
     (baseLms.set LEFT_SHOULDER ⟨0.7, 0.3, 0, 1⟩).set RIGHT_SHOULDER ⟨0.3, 0.3, 0, 1⟩⟩)

/-- Three frames with fully visible hips: at least 2 frames of usable hip
data, yet fewer than 4 frames in total. -/
def exFrames3 : List PoseFrame :=
  [mkHipFrame 0 0.5, mkHipFrame 1 0.7, mkHipFrame 2 0.5]

/-- Prims whose square root is constantly 1 (used to exercise the
outlier-rejection threshold test concretely). -/
def P1 : MathPrims := ⟨fun _ => 1, fun _ _ => 0, fun _ => 0⟩

/-- Two aggregation inputs with distinct summaries and scores 0 and 100. -/
def msLow : MetricScore := ⟨0, .red, "A", [1, 2], .high⟩

def msHigh : MetricScore := ⟨100, .green, "B", [3], .high⟩

/-- A default rep record for head lookups in witnesses. -/
def dfltRD : RepData :=
  ⟨0, 0, 0, 0, dfltMS, dfltMS, dfltMS, dfltMS, dfltMS, dfltMS, dfltMS, dfltMS, dfltMS,
   dfltMS, dfltMS, dfltMS, dfltMS, dfltMS, dfltMS, dfltMS, dfltMS, dfltMS⟩

/-- A raw landmark observation one unit away from its previous position. -/
def c7raw : List Landmark := [⟨1, 1, 0, 0.9⟩]

/-- The previous-frame landmark for the outlier-rejection witness. -/
def c7prev : List Landmark := [⟨0, 0, 0, 0.2⟩]

/-- The first metric score of the analysis of `wFrames` (C1 witness value). -/
def wMS : MetricScore :=
  (analysisMetricScores (analyzeSquat P0 wFrames none none)).headD dfltMS

/-- The first rep record of the analysis of `wFrames` (C3 witness value). -/
def wRD : RepData := (repsOf (analyzeSquat P0 wFrames none none)).headD dfltRD

-- ═══ Theorems ═════════════════════════════════════════════════════════════

-- generic score-range lemmas ----------------------------------------------

theorem clamp_le (v lo hi : ℚ) (h : lo ≤ hi) :
    lo ≤ clamp v lo hi ∧ clamp v lo hi ≤ hi := by
  unfold clamp
  exact ⟨le_max_left _ _, max_le h (min_le_left _ _)⟩

theorem jsRound_bounds (s : ℚ) (h0 : 0 ≤ s) (h1 : s ≤ 100) :
    0 ≤ jsRound s ∧ jsRound s ≤ 100 := by
  unfold jsRound
  constructor
  · exact Int.floor_nonneg.mpr (by linarith)
  · have : ⌊s + 1/2⌋ < (101 : ℤ) := Int.floor_lt.mpr (by push_cast; linarith)
    omega

theorem mkMS_ok (s : ℚ) (sm : String) (fr : List ℕ) (h0 : 0 ≤ s) (h1 : s ≤ 100) :
    msOk (mkMS s sm fr) := by
  obtain ⟨a, b⟩ := jsRound_bounds s h0 h1
  exact ⟨⟨a, b⟩, rfl⟩

theorem mkMS_clamp_ok (v lo hi : ℚ) (sm : String) (fr : List ℕ)
    (h0 : 0 ≤ lo) (h : lo ≤ hi) (h1 : hi ≤ 100) : msOk (mkMS (clamp v lo hi) sm fr) := by
  obtain ⟨a, b⟩ := clamp_le v lo hi h
  exact mkMS_ok _ _ _ (le_trans h0 a) (le_trans b h1)

theorem clamp_ok (v lo hi : ℚ) (h0 : 0 ≤ lo) (h : lo ≤ hi) (h1 : hi ≤ 100) :
    0 ≤ clamp v lo hi ∧ clamp v lo hi ≤ 100 := by
  obtain ⟨a, b⟩ := clamp_le v lo hi h
  exact ⟨le_trans h0 a, le_trans b h1⟩

theorem minIfC {x c : ℚ} (hx : 0 ≤ x ∧ x ≤ 100) (hc0 : 0 ≤ c) :
    0 ≤ x ⊓ c ∧ x ⊓ c ≤ 100 :=
  ⟨le_min hx.1 hc0, le_trans inf_le_left hx.2⟩

theorem stampConf_ok (angle : CameraAngle) (key : String) (ms : MetricScore)
    (h : msOk ms) : msOk (stampConf angle key ms) := h

theorem getRating_matches (ms : MetricScore) (h : ms.rating = getRating ms.score) :
    (ms.rating = .green ↔ 80 ≤ ms.score) ∧
    (ms.rating = .yellow ↔ 50 ≤ ms.score ∧ ms.score < 80) ∧
    (ms.rating = .red ↔ ms.score < 50) := by
  rw [h]
  unfold getRating
  split_ifs with h1 h2
  · exact ⟨iff_of_true rfl (by omega), iff_of_false (by decide) (by omega),
      iff_of_false (by decide) (by omega)⟩
  · exact ⟨iff_of_false (by decide) (by omega), iff_of_true rfl (by omega),
      iff_of_false (by decide) (by omega)⟩
  · exact ⟨iff_of_false (by decide) (by omega), iff_of_false (by decide) (by omega),
      iff_of_true rfl (by omega)⟩

-- per-scorer score-range lemmas -------------------------------------------

theorem scoreDepth_ok (P : MathPrims) (frames : List PoseFrame) (rep : DetectedRep) :
    msOk (scoreDepth P frames rep) := by
  unfold scoreDepth
  lift_lets
  extract_lets a b c d
  split_ifs <;> exact mkMS_clamp_ok _ _ _ _ _ (by norm_num) (by norm_num) (by norm_num)

theorem scoreKneeTracking_ok (frames : List PoseFrame) (rep : DetectedRep) :
    msOk (scoreKneeTracking frames rep) := by
  unfold scoreKneeTracking
  lift_lets
  extract_lets a b c d e
  split_ifs <;> exact mkMS_clamp_ok _ _ _ _ _ (by norm_num) (by norm_num) (by norm_num)

theorem scoreBackAngle_ok (P : MathPrims) (frames : List PoseFrame) (rep : DetectedRep) :
    msOk (scoreBackAngle P frames rep) := by
  unfold scoreBackAngle
  lift_lets
  extract_lets idxs angles issueF m mn vr sd b1 b2 fsc fsm
  have hb1 : (0 : ℚ) ≤ b1 ∧ b1 ≤ 100 := by
    rw [show b1 = (if m ≤ 45 ∧ sd < 10 then clamp (80 + (1 - m / 45) * 20) 80 100
          else if m ≤ 60 then clamp (50 + ((60 - m) / 15) * 29) 50 79
          else clamp (49 - (m - 60) * 2) 0 49) from rfl]
    split_ifs <;> exact clamp_ok _ _ _ (by norm_num) (by norm_num) (by norm_num)
  have hf : (0 : ℚ) ≤ fsc ∧ fsc ≤ 100 := by
    rw [show fsc = (if sd > 15 then max 0 (b1 - 10) else b1) from rfl]
    split_ifs
    · exact ⟨le_max_left _ _, max_le (by norm_num) (by linarith [hb1.2])⟩
    · exact hb1
  split_ifs
  · exact ⟨⟨by decide, by decide⟩, by decide⟩
  · exact mkMS_ok _ _ _ hf.1 hf.2

theorem scoreBarPath_ok (frames : List PoseFrame) (rep : DetectedRep) :
    msOk (scoreBarPath frames rep) := by
  unfold scoreBarPath
  lift_lets
  extract_lets a b c d e f
  split_ifs <;> first
    | exact ⟨⟨by decide, by decide⟩, by decide⟩
    | exact mkMS_clamp_ok _ _ _ _ _ (by norm_num) (by norm_num) (by norm_num)

theorem scoreSymmetry_ok (P : MathPrims) (frames : List PoseFrame) (rep : DetectedRep) :
    msOk (scoreSymmetry P frames rep) := by
  unfold scoreSymmetry
  lift_lets
  extract_lets a b c d e f g h i j k l m n o p q r s t
  split_ifs <;> exact mkMS_clamp_ok _ _ _ _ _ (by norm_num) (by norm_num) (by norm_num)

theorem scoreButtWink_ok (P : MathPrims) (frames : List PoseFrame) (rep : DetectedRep) :
    msOk (scoreButtWink P frames rep) := by
  unfold scoreButtWink
  lift_lets
  extract_lets a b c d e f g h i j k l m
  split_ifs <;> first
    | exact ⟨⟨by decide, by decide⟩, by decide⟩
    | exact mkMS_clamp_ok _ _ _ _ _ (by norm_num) (by norm_num) (by norm_num)

theorem scoreTempo_ok (frames : List PoseFrame) (rep : DetectedRep) :
    msOk (scoreTempo frames rep) := by
  unfold scoreTempo
  lift_lets
  extract_lets a b c d e f g h i j k l
  have hgb : (0 : ℚ) ≤ g ∧ g ≤ 100 := by
    rw [show g = 100 from rfl]; norm_num
  have hhb : (0 : ℚ) ≤ h ∧ h ≤ 100 := by
    rw [show h = (if f < 1 then min g 30 else g) from rfl]
    split_ifs
    · exact minIfC hgb (by norm_num)
    · exact hgb
  have hib : (0 : ℚ) ≤ i ∧ i ≤ 100 := by
    rw [show i = (if d < 1 then min h 60 else if 1.5 ≤ d ∧ d ≤ 4 then h
          else if d > 4 then min h 70 else h) from rfl]
    split_ifs
    · exact minIfC hhb (by norm_num)
    · exact hhb
    · exact minIfC hhb (by norm_num)
    · exact hhb
  have hjb : (0 : ℚ) ≤ j ∧ j ≤ 100 := by
    rw [show j = (if e < 0.8 then min i 65 else if e > 2.5 ∧ e ≤ 3 then min i 75
          else if e > 3 then min i 60 else i) from rfl]
    split_ifs
    · exact minIfC hib (by norm_num)
    · exact minIfC hib (by norm_num)
    · exact minIfC hib (by norm_num)
    · exact hib
  have hkb : (0 : ℚ) ≤ k ∧ k ≤ 100 := by
    rw [show k = (if d > 0 ∧ e > 0 then if 1.2 ≤ d / e ∧ d / e ≤ 2.5 then j
          else if d / e < 1 then min j 65 else j else j) from rfl]
    split_ifs
    · exact hjb
    · exact minIfC hjb (by norm_num)
    · exact hjb
    · exact hjb
  exact mkMS_ok _ _ _ hkb.1 hkb.2

theorem scoreHeelRise_ok (frames : List PoseFrame) (rep : DetectedRep) :
    msOk (scoreHeelRise frames rep) := by
  unfold scoreHeelRise
  lift_lets
  extract_lets a b c d e f
  split_ifs <;> exact mkMS_clamp_ok _ _ _ _ _ (by norm_num) (by norm_num) (by norm_num)

theorem scoreStanceWidth_ok (frames : List PoseFrame) (rep : DetectedRep) :
    msOk (scoreStanceWidth frames rep) := by
  unfold scoreStanceWidth
  lift_lets
  extract_lets a b c d
  split_ifs <;> first
    | exact ⟨⟨by decide, by decide⟩, by decide⟩
    | exact mkMS_clamp_ok _ _ _ _ _ (by norm_num) (by norm_num) (by norm_num)

theorem scoreHipShift_ok (frames : List PoseFrame) (rep : DetectedRep) :
    msOk (scoreHipShift frames rep) := by
  unfold scoreHipShift
  lift_lets
  extract_lets a b c d e f
  split_ifs <;> first
    | exact ⟨⟨by decide, by decide⟩, by decide⟩
    | exact mkMS_clamp_ok _ _ _ _ _ (by norm_num) (by norm_num) (by norm_num)

theorem scoreKneeValgus_ok (P : MathPrims) (frames : List PoseFrame) (rep : DetectedRep) :
    msOk (scoreKneeValgus P frames rep) := by
  unfold scoreKneeValgus
  lift_lets
  extract_lets a b c d
  split_ifs <;> exact mkMS_clamp_ok _ _ _ _ _ (by norm_num) (by norm_num) (by norm_num)

theorem scoreKneeTravel_ok (frames : List PoseFrame) (rep : DetectedRep) :
    msOk (scoreKneeTravel frames rep) := by
  unfold scoreKneeTravel
  lift_lets
  extract_lets a b c d e
  split_ifs <;> exact mkMS_clamp_ok _ _ _ _ _ (by norm_num) (by norm_num) (by norm_num)

theorem scoreDepthConsistency_ok (P : MathPrims) (frames : List PoseFrame)
    (allReps : List DetectedRep) : msOk (scoreDepthConsistency P frames allReps) := by
  unfold scoreDepthConsistency
  lift_lets
  extract_lets a b c d e f
  split_ifs <;> first
    | exact ⟨⟨by decide, by decide⟩, by decide⟩
    | exact mkMS_clamp_ok _ _ _ _ _ (by norm_num) (by norm_num) (by norm_num)

theorem scoreThoracicRounding_ok (P : MathPrims) (frames : List PoseFrame)
    (rep : DetectedRep) : msOk (scoreThoracicRounding P frames rep) := by
  unfold scoreThoracicRounding
  lift_lets
  extract_lets a b c d
  split_ifs <;> exact mkMS_clamp_ok _ _ _ _ _ (by norm_num) (by norm_num) (by norm_num)

theorem scoreHipRiseRate_ok (frames : List PoseFrame) (rep : DetectedRep) :
    msOk (scoreHipRiseRate frames rep) := by
  unfold scoreHipRiseRate
  lift_lets
  extract_lets a b c d e f
  split_ifs <;> first
    | exact ⟨⟨by decide, by decide⟩, by decide⟩
    | exact mkMS_clamp_ok _ _ _ _ _ (by norm_num) (by norm_num) (by norm_num)

theorem scoreReversalControl_ok (frames : List PoseFrame) (rep : DetectedRep) :
    msOk (scoreReversalControl frames rep) := by
  unfold scoreReversalControl
  lift_lets
  extract_lets a b c d e f g h i j
  split_ifs <;> first
    | exact ⟨⟨by decide, by decide⟩, by decide⟩
    | exact mkMS_clamp_ok _ _ _ _ _ (by norm_num) (by norm_num) (by norm_num)

theorem scoreStanceWidthShift_ok (frames : List PoseFrame) (rep : DetectedRep) :
    msOk (scoreStanceWidthShift frames rep) := by
  unfold scoreStanceWidthShift
  lift_lets
  extract_lets a b c d e f
  split_ifs <;> first
    | exact ⟨⟨by decide, by decide⟩, by decide⟩
    | exact mkMS_clamp_ok _ _ _ _ _ (by norm_num) (by norm_num) (by norm_num)

theorem scoreHeadPosition_ok (P : MathPrims) (frames : List PoseFrame) (rep : DetectedRep) :
    msOk (scoreHeadPosition P frames rep) := by
  unfold scoreHeadPosition
  lift_lets
  extract_lets a b c d
  split_ifs <;> exact mkMS_clamp_ok _ _ _ _ _ (by norm_num) (by norm_num) (by norm_num)

-- aggregation and whole-result lemmas -------------------------------------

theorem averageMetricScores_ok (scores : List MetricScore)
    (h : ∀ ms ∈ scores, msOk ms) : msOk (averageMetricScores scores) := by
  unfold averageMetricScores
  lift_lets
  extract_lets avg allI sorted med good sm
  split_ifs with hE
  · exact ⟨⟨by decide, by decide⟩, by decide⟩
  · refine ⟨?_, rfl⟩
    rw [show avg = jsRound ((((scores.map (·.score)).sum : ℤ) : ℚ) / (scores.length : ℚ))
      from rfl]
    have hlen : 0 < scores.length := List.length_pos.mpr hE
    have hsum0 : (0 : ℤ) ≤ (scores.map (·.score)).sum := by
      apply List.sum_nonneg
      intro x hx
      obtain ⟨ms, hms, rfl⟩ := List.mem_map.mp hx
      exact (h ms hms).1.1
    have hsum1 : (scores.map (·.score)).sum ≤ 100 * scores.length := by
      have := List.sum_le_card_nsmul (scores.map (·.score)) 100 (by
        intro x hx
        obtain ⟨ms, hms, rfl⟩ := List.mem_map.mp hx
        exact (h ms hms).1.2)
      simpa [nsmul_eq_mul, mul_comm] using this
    have hq0 : (0 : ℚ) ≤ (((scores.map (·.score)).sum : ℤ) : ℚ) / (scores.length : ℚ) := by
      apply div_nonneg _ (by positivity)
      exact_mod_cast hsum0
    have hq1 : (((scores.map (·.score)).sum : ℤ) : ℚ) / (scores.length : ℚ) ≤ 100 := by
      rw [div_le_iff₀ (by positivity)]
      exact_mod_cast hsum1
    exact jsRound_bounds _ hq0 hq1

theorem repMetricList_mkRepData_ok (P : MathPrims) (frames : List PoseFrame)
    (angle : CameraAngle) (dc : MetricScore) (idx : ℕ) (rep : DetectedRep)
    (hdc : msOk dc) :
    ∀ ms ∈ repMetricList (mkRepData P frames angle dc idx rep), msOk ms := by
  intro ms hms
  simp only [repMetricList, List.mem_cons, List.mem_singleton,
    List.not_mem_nil, or_false] at hms
  rcases hms with rfl|rfl|rfl|rfl|rfl|rfl|rfl|rfl|rfl|rfl|rfl|rfl|rfl|rfl|rfl|rfl|rfl|rfl
  · exact stampConf_ok _ _ _ (scoreDepth_ok _ _ _)
  · exact stampConf_ok _ _ _ (scoreKneeTracking_ok _ _)
  · exact stampConf_ok _ _ _ (scoreBackAngle_ok _ _ _)
  · exact stampConf_ok _ _ _ (scoreBarPath_ok _ _)
  · exact stampConf_ok _ _ _ (scoreSymmetry_ok _ _ _)
  · exact stampConf_ok _ _ _ (scoreButtWink_ok _ _ _)
  · exact stampConf_ok _ _ _ (scoreTempo_ok _ _)
  · exact stampConf_ok _ _ _ (scoreHeelRise_ok _ _)
  · exact stampConf_ok _ _ _ (scoreStanceWidth_ok _ _)
  · exact stampConf_ok _ _ _ (scoreHipShift_ok _ _)
  · exact stampConf_ok _ _ _ (scoreKneeValgus_ok _ _ _)
  · exact stampConf_ok _ _ _ (scoreKneeTravel_ok _ _)
  · exact hdc
  · exact stampConf_ok _ _ _ (scoreThoracicRounding_ok _ _ _)
  · exact stampConf_ok _ _ _ (scoreHipRiseRate_ok _ _)
  · exact stampConf_ok _ _ _ (scoreReversalControl_ok _ _)
  · exact stampConf_ok _ _ _ (scoreStanceWidthShift_ok _ _)
  · exact stampConf_ok _ _ _ (scoreHeadPosition_ok _ _ _)

theorem buildResult_metricScores_ok (P : MathPrims) (frames : List PoseFrame)
    (ex : Option ExerciseType) (ca : Option CameraAngle) (reps : List DetectedRep) :
    ∀ ms ∈ resultMetricScores (buildResult P frames ex ca reps), msOk ms := by
  intro ms hms
  have hdc : msOk (stampConf (ca.getD .uncertain) "depthConsistency"
      (scoreDepthConsistency P frames reps)) :=
    stampConf_ok _ _ _ (scoreDepthConsistency_ok _ _ _)
  unfold resultMetricScores buildResult at hms
  rw [List.mem_append] at hms
  rcases hms with hms | hms
  · rw [List.mem_flatten] at hms
    obtain ⟨l, hl, hml⟩ := hms
    rw [List.mem_map] at hl
    obtain ⟨rd, hrd, rfl⟩ := hl
    rw [List.mem_map] at hrd
    obtain ⟨p, _, rfl⟩ := hrd
    exact repMetricList_mkRepData_ok _ _ _ _ _ _ hdc ms hml
  · simp only [overallMetricList, List.mem_cons, List.mem_singleton,
      List.not_mem_nil, or_false] at hms
    have step : ∀ f : RepData → MetricScore,
        (∀ idx rep, msOk (f (mkRepData P frames (ca.getD .uncertain)
          (stampConf (ca.getD .uncertain) "depthConsistency"
            (scoreDepthConsistency P frames reps)) idx rep))) →
        msOk (averageMetricScores ((reps.enum.map (fun p =>
          mkRepData P frames (ca.getD .uncertain)
            (stampConf (ca.getD .uncertain) "depthConsistency"
              (scoreDepthConsistency P frames reps)) p.1 p.2)).map f)) := by
      intro f hf
      apply averageMetricScores_ok
      intro ms' hms'
      rw [List.mem_map] at hms'
      obtain ⟨rd, hrd, rfl⟩ := hms'
      rw [List.mem_map] at hrd
      obtain ⟨p, _, rfl⟩ := hrd
      exact hf p.1 p.2
    rcases hms with rfl|rfl|rfl|rfl|rfl|rfl|rfl|rfl|rfl|rfl|rfl|rfl|rfl|rfl|rfl|rfl|rfl|rfl
    · exact step _ (fun i r => stampConf_ok _ _ _ (scoreDepth_ok _ _ _))
    · exact step _ (fun i r => stampConf_ok _ _ _ (scoreKneeTracking_ok _ _))
    · exact step _ (fun i r => stampConf_ok _ _ _ (scoreBackAngle_ok _ _ _))
    · exact step _ (fun i r => stampConf_ok _ _ _ (scoreBarPath_ok _ _))
    · exact step _ (fun i r => stampConf_ok _ _ _ (scoreSymmetry_ok _ _ _))
    · exact step _ (fun i r => stampConf_ok _ _ _ (scoreButtWink_ok _ _ _))
    · exact step _ (fun i r => stampConf_ok _ _ _ (scoreTempo_ok _ _))
    · exact step _ (fun i r => stampConf_ok _ _ _ (scoreHeelRise_ok _ _))
    · exact step _ (fun i r => stampConf_ok _ _ _ (scoreStanceWidth_ok _ _))
    · exact step _ (fun i r => stampConf_ok _ _ _ (scoreHipShift_ok _ _))
    · exact step _ (fun i r => stampConf_ok _ _ _ (scoreKneeValgus_ok _ _ _))
    · exact step _ (fun i r => stampConf_ok _ _ _ (scoreKneeTravel_ok _ _))
    · exact hdc
    · exact step _ (fun i r => stampConf_ok _ _ _ (scoreThoracicRounding_ok _ _ _))
    · exact step _ (fun i r => stampConf_ok _ _ _ (scoreHipRiseRate_ok _ _))
    · exact step _ (fun i r => stampConf_ok _ _ _ (scoreReversalControl_ok _ _))
    · exact step _ (fun i r => stampConf_ok _ _ _ (scoreStanceWidthShift_ok _ _))
    · exact step _ (fun i r => stampConf_ok _ _ _ (scoreHeadPosition_ok _ _ _))

/-- C1: every MetricScore produced by the analysis — the 18 per-rep metrics
of every RepData and every overall metric — has an integer score with
0 ≤ score ≤ 100, and its rating is green exactly when score ≥ 80, yellow
exactly when 50 ≤ score < 80, and red exactly when score < 50. -/
theorem claim_C1 (P : MathPrims) (frames : List PoseFrame) (ex : Option ExerciseType)
    (ca : Option CameraAngle) (ms : MetricScore)
    (hms : ms ∈ analysisMetricScores (analyzeSquat P frames ex ca)) :
    (0 ≤ ms.score ∧ ms.score ≤ 100) ∧
    (ms.rating = .green ↔ 80 ≤ ms.score) ∧
    (ms.rating = .yellow ↔ 50 ≤ ms.score ∧ ms.score < 80) ∧
    (ms.rating = .red ↔ ms.score < 50) := by
  have hOk : msOk ms := by
    simp only [analyzeSquat] at hms
    split_ifs at hms with h1 h2
    · exact buildResult_metricScores_ok _ _ _ _ _ ms hms
    · simp [analysisMetricScores] at hms
    · exact buildResult_metricScores_ok _ _ _ _ _ ms hms
  exact ⟨hOk.1, getRating_matches ms hOk.2⟩

theorem buildResult_dc (P : MathPrims) (frames : List PoseFrame)
    (ex : Option ExerciseType) (ca : Option CameraAngle) (reps : List DetectedRep) :
    ∀ rd ∈ (buildResult P frames ex ca reps).reps,
      rd.depthConsistency = (buildResult P frames ex ca reps).overall.depthConsistency := by
  intro rd hrd
  unfold buildResult at hrd ⊢
  obtain ⟨p, _, rfl⟩ := List.mem_map.mp hrd
  rfl

/-- C3: the depthConsistency MetricScore is a single cross-rep value —
equal in every RepData entry of the result and equal to the overall
depthConsistency entry. -/
theorem claim_C3 (P : MathPrims) (frames : List PoseFrame) (ex : Option ExerciseType)
    (ca : Option CameraAngle) (rd : RepData)
    (hrd : rd ∈ repsOf (analyzeSquat P frames ex ca)) :
    rd.depthConsistency = overallDepthConsistencyOf (analyzeSquat P frames ex ca) := by
  simp only [analyzeSquat] at hrd ⊢
  split_ifs at hrd ⊢ with h1 h2
  · exact buildResult_dc _ _ _ _ _ rd hrd
  · simp [repsOf] at hrd
  · exact buildResult_dc _ _ _ _ _ rd hrd

/-- C8: scoreDepthConsistency with fewer than 2 detected reps returns a
perfect score: 100, rating green, and empty issueFrames. -/
theorem claim_C8 (P : MathPrims) (frames : List PoseFrame) (allReps : List DetectedRep)
    (h : allReps.length < 2) :
    (scoreDepthConsistency P frames allReps).score = 100 ∧
    (scoreDepthConsistency P frames allReps).rating = .green ∧
    (scoreDepthConsistency P frames allReps).issueFrames = [] := by
  unfold scoreDepthConsistency
  rw [if_pos h]
  exact ⟨rfl, rfl, rfl⟩

/-- Witness for C8 at the concrete empty rep list. -/
theorem claim_C8_witness :
    ([] : List DetectedRep).length < 2 ∧
    ((scoreDepthConsistency P0 [] []).score = 100 ∧
     (scoreDepthConsistency P0 [] []).rating = .green ∧
     (scoreDepthConsistency P0 [] []).issueFrames = []) :=
  ⟨by decide, claim_C8 P0 [] [] (by decide)⟩

theorem headD_mem {α : Type} (l : List α) (d : α) (h : l ≠ []) : l.headD d ∈ l := by
  cases l with
  | nil => exact absurd rfl h
  | cons a t => exact List.mem_cons_self a t

/-- Witness for C1: the head metric score of a concrete analysed clip. -/
theorem claim_C1_witness :
    wMS ∈ analysisMetricScores (analyzeSquat P0 wFrames none none) ∧
    ((0 ≤ wMS.score ∧ wMS.score ≤ 100) ∧
     (wMS.rating = .green ↔ 80 ≤ wMS.score) ∧
     (wMS.rating = .yellow ↔ 50 ≤ wMS.score ∧ wMS.score < 80) ∧
     (wMS.rating = .red ↔ wMS.score < 50)) := by
  have hne : analysisMetricScores (analyzeSquat P0 wFrames none none) ≠ [] := by
    with_unfolding_all decide
  exact ⟨headD_mem _ _ hne, claim_C1 P0 wFrames none none wMS (headD_mem _ _ hne)⟩

/-- Witness for C3: the head rep of a concrete analysed clip. -/
theorem claim_C3_witness :
    wRD ∈ repsOf (analyzeSquat P0 wFrames none none) ∧
    wRD.depthConsistency = overallDepthConsistencyOf (analyzeSquat P0 wFrames none none) := by
  have hne : repsOf (analyzeSquat P0 wFrames none none) ≠ [] := by
    with_unfolding_all decide
  exact ⟨headD_mem _ _ hne, claim_C3 P0 wFrames none none wRD (headD_mem _ _ hne)⟩

-- fold lemmas for the fallback bottom search ------------------------------

theorem foldl_max_ge_init (a : ℚ) (xs : List ℚ) : a ≤ xs.foldl max a := by
  induction xs generalizing a with
  | nil => exact le_refl a
  | cons x t ih => exact le_trans (le_max_left a x) (ih (max a x))

theorem foldl_max_ge_mem (a : ℚ) (xs : List ℚ) (x : ℚ) (hx : x ∈ xs) :
    x ≤ xs.foldl max a := by
  induction xs generalizing a with
  | nil => cases hx
  | cons y t ih =>
    rcases List.mem_cons.mp hx with rfl | hx'
    · exact le_trans (le_max_right a x) (foldl_max_ge_init _ t)
    · exact ih (max a y) hx'

theorem foldl_max_le (a : ℚ) (xs : List ℚ) (c : ℚ) (ha : a ≤ c)
    (h : ∀ x ∈ xs, x ≤ c) : xs.foldl max a ≤ c := by
  induction xs generalizing a with
  | nil => exact ha
  | cons x t ih =>
    exact ih (max a x) (max_le ha (h x (List.mem_cons_self x t)))
      (fun y hy => h y (List.mem_cons_of_mem x hy))

theorem argmax_fold_spec (vals : List ℚ) (l : List (ℕ × ℚ)) (acc : ℕ × ℚ)
    (hacc : vals.getD acc.1 0 = acc.2) (hl : ∀ q ∈ l, vals.getD q.1 0 = q.2) :
    vals.getD (l.foldl (fun b q => if q.2 > b.2 then q else b) acc).1 0 =
      (l.foldl (fun b q => if q.2 > b.2 then q else b) acc).2 ∧
    acc.2 ≤ (l.foldl (fun b q => if q.2 > b.2 then q else b) acc).2 ∧
    (∀ q ∈ l, q.2 ≤ (l.foldl (fun b q => if q.2 > b.2 then q else b) acc).2) ∧
    ((l.foldl (fun b q => if q.2 > b.2 then q else b) acc) = acc ∨
     (l.foldl (fun b q => if q.2 > b.2 then q else b) acc) ∈ l) := by
  induction l generalizing acc with
  | nil => exact ⟨hacc, le_refl _, fun q hq => absurd hq (List.not_mem_nil q), Or.inl rfl⟩
  | cons q t ih =>
    simp only [List.foldl_cons]
    have hq : vals.getD q.1 0 = q.2 := hl q (List.mem_cons_self q t)
    by_cases hgt : q.2 > acc.2
    · rw [if_pos hgt]
      obtain ⟨r1, r2, r3, r4⟩ := ih q hq (fun p hp => hl p (List.mem_cons_of_mem q hp))
      refine ⟨r1, le_trans (le_of_lt hgt) r2, ?_, ?_⟩
      · intro p hp
        rcases List.mem_cons.mp hp with rfl | hp'
        · exact r2
        · exact r3 p hp'
      · rcases r4 with h | h
        · exact Or.inr (by rw [h]; exact List.mem_cons_self q t)
        · exact Or.inr (List.mem_cons_of_mem q h)
    · rw [if_neg hgt]
      obtain ⟨r1, r2, r3, r4⟩ := ih acc hacc (fun p hp => hl p (List.mem_cons_of_mem q hp))
      refine ⟨r1, r2, ?_, ?_⟩
      · intro p hp
        rcases List.mem_cons.mp hp with rfl | hp'
        · exact le_trans (le_of_not_lt hgt) r2
        · exact r3 p hp'
      · rcases r4 with h | h
        · exact Or.inl h
        · exact Or.inr (List.mem_cons_of_mem q h)

theorem argmax_achieves (vals : List ℚ) :
    vals.getD ((vals.enum.drop 1).foldl (fun b q => if q.2 > b.2 then q else b)
      (0, vals.headD 0)).1 0 = vals.foldl max (vals.headD 0) := by
  cases vals with
  | nil => rfl
  | cons a t =>
    have hl : ∀ q ∈ (a :: t).enum.drop 1, (a :: t).getD q.1 0 = q.2 := by
      intro q hq
      obtain ⟨n, hn, he⟩ := List.mem_iff_getElem.mp (List.drop_subset 1 _ hq)
      rw [List.getElem_enum] at he
      have hn' : n < (a :: t).length := by simpa [List.enum_length] using hn
      rw [← he]
      exact List.getD_eq_getElem _ 0 hn'
    obtain ⟨r1, r2, r3, r4⟩ := argmax_fold_spec (a :: t) ((a :: t).enum.drop 1) (0, a) rfl hl
    simp only [List.headD_cons]
    rw [r1]
    apply le_antisymm
    · rcases r4 with h | h
      · rw [h]
        exact foldl_max_ge_init a (a :: t)
      · obtain ⟨n, hn, he⟩ := List.mem_iff_getElem.mp (List.drop_subset 1 _ h)
        rw [List.getElem_enum] at he
        have hn' : n < (a :: t).length := by simpa [List.enum_length] using hn
        have hmem : (a :: t)[n] ∈ (a :: t) := List.getElem_mem hn'
        rw [← he]
        exact foldl_max_ge_mem a (a :: t) _ hmem
    · apply foldl_max_le
      · exact r2
      · intro x hx
        obtain ⟨n, hn, he⟩ := List.mem_iff_getElem.mp hx
        rcases Nat.eq_zero_or_pos n with rfl | hpos
        · have hxa : x = a := by simpa using he.symm
          rw [hxa]
          exact r2
        · have hmem : (n, x) ∈ (a :: t).enum.drop 1 := by
            rw [List.mem_iff_getElem]
            refine ⟨n - 1, ?_, ?_⟩
            · rw [List.length_drop, List.enum_length]
              omega
            · rw [List.getElem_drop, List.getElem_enum]
              have h1 : 1 + (n - 1) = n := by omega
              simp only [h1]
              rw [he]
          exact r3 (n, x) hmem

theorem hipArgmax_max (frames : List PoseFrame) :
    (hipYValues frames).getD (hipArgmax frames) 0 = listMax (hipYValues frames) := by
  unfold hipArgmax listMax
  exact argmax_achieves (hipYValues frames)

/-- C2: when rep segmentation finds no prominent peak, `analyzeSquat`
throws the no-reps error if the whole-clip hip range is below 0.005, and
otherwise analyses exactly one rep spanning the whole clip whose bottom is
the global maximum of the average hip-height signal. -/
theorem claim_C2 (P : MathPrims) (ex : Option ExerciseType) (ca : Option CameraAngle)
    (frames : List PoseFrame) (hdet : detectReps frames = []) :
    (hipRange frames < 0.005 → analyzeSquat P frames ex ca = .error noRepsMsg) ∧
    (0.005 < hipRange frames →
      (repsOf (analyzeSquat P frames ex ca)).map
        (fun r => (r.startFrame, r.endFrame, r.bottomFrame)) =
        [(0, frames.length - 1, hipArgmax frames)] ∧
      (hipYValues frames).getD (hipArgmax frames) 0 = listMax (hipYValues frames)) := by
  constructor
  · intro hlt
    unfold hipRange at hlt
    simp only [analyzeSquat, hdet, List.length_nil, gt_iff_lt, lt_self_iff_false, if_false]
    rw [if_pos hlt]
  · intro hgt
    unfold hipRange at hgt
    simp only [analyzeSquat, hdet, List.length_nil, gt_iff_lt, lt_self_iff_false, if_false]
    rw [if_neg (by linarith)]
    exact ⟨rfl, hipArgmax_max frames⟩

/-- Witness for C2: a flat clip hits the error branch and a shallow-dip
clip hits the single whole-clip-rep branch. -/
theorem claim_C2_witness :
    (detectReps flatFrames = [] ∧ hipRange flatFrames < 0.005 ∧
      analyzeSquat P0 flatFrames none none = .error noRepsMsg) ∧
    (detectReps wFrames = [] ∧ 0.005 < hipRange wFrames ∧
      (repsOf (analyzeSquat P0 wFrames none none)).map
        (fun r => (r.startFrame, r.endFrame, r.bottomFrame)) =
        [(0, wFrames.length - 1, hipArgmax wFrames)]) := by
  have h1 : detectReps flatFrames = [] := by with_unfolding_all decide
  have h2 : hipRange flatFrames < 0.005 := by with_unfolding_all decide
  have h3 : detectReps wFrames = [] := by with_unfolding_all decide
  have h4 : (0.005 : ℚ) < hipRange wFrames := by with_unfolding_all decide
  exact ⟨⟨h1, h2, (claim_C2 P0 none none flatFrames h1).1 h2⟩,
         ⟨h3, h4, ((claim_C2 P0 none none wFrames h3).2 h4).1⟩⟩

-- C4: aggregation ----------------------------------------------------------

/-- Counterexample to C4 as frozen: with two reps scoring 0 and 100, the
overall summary comes from the higher-scored rep (index ⌊n/2⌋ of the
ascending sort, the upper median), not the lower median (index ⌊(n-1)/2⌋). -/
theorem claim_C4_counterexample :
    ¬ aggContract (([msLow, msHigh].length - 1) / 2) [msLow, msHigh]
        (averageMetricScores [msLow, msHigh]) := by
  unfold aggContract specSortedByScore specGoodSuffix
  with_unfolding_all decide

/-- C4 (amended): for every non-empty list of per-rep scores the aggregated
MetricScore has the rounded-mean score, the summary of the rep at index
⌊n/2⌋ of the ascending stable sort (the upper median) with the
"(k/n reps rated good)" suffix when n > 1, and the concatenation of all
reps' issueFrames in rep order. -/
theorem claim_C4 (scores : List MetricScore) (h : scores ≠ []) :
    aggContract (scores.length / 2) scores (averageMetricScores scores) := by
  unfold aggContract averageMetricScores specSortedByScore specGoodSuffix
  rw [if_neg h]
  lift_lets
  extract_lets avg allI sorted med good sm
  refine ⟨rfl, ?_, rfl⟩
  rw [show sm = (if scores.length > 1 then
        med ++ " (" ++ toString good ++ "/" ++ toString scores.length ++ " reps rated good)"
      else med) from rfl]
  rw [show med = (sorted.getD (sorted.length / 2) dfltMS).summary from rfl]
  rw [show good = (scores.filter (fun s => decide (s.score ≥ 80))).length from rfl]
  rw [show sorted = scores.insertionSort (fun a b => a.score ≤ b.score) from rfl]
  rw [List.length_insertionSort]
  split_ifs with h1
  · simp only [String.append_assoc]
  · rw [String.append_empty]

/-- Witness for C4's amended theorem at a concrete two-element input. -/
theorem claim_C4_witness :
    ([msLow, msHigh] : List MetricScore) ≠ [] ∧
    aggContract ([msLow, msHigh].length / 2) [msLow, msHigh]
      (averageMetricScores [msLow, msHigh]) :=
  ⟨by decide, claim_C4 [msLow, msHigh] (by decide)⟩

-- C5: exercise classification ----------------------------------------------

/-- Counterexample to C5 as frozen: a three-frame clip with fully visible
hips has at least 2 frames of usable hip data, yet `detectExerciseType`
returns unknown (it first requires at least 4 frames in total). -/
theorem claim_C5_counterexample :
    2 ≤ (usableFrames exFrames3).length ∧ detectExerciseType P0 exFrames3 = .unknown := by
  constructor
  · with_unfolding_all decide
  · with_unfolding_all decide

/-- C5 (amended): `detectExerciseType` computes hipYRange, hipXRange and
kneeAngleRange over the frames with both hips at visibility ≥ 0.3 and
classifies squat / deadlift / squat / other by the stated thresholds; it
returns unknown exactly when the clip has fewer than 4 frames or fewer
than 2 frames with usable hip data. -/
theorem claim_C5 (P : MathPrims) (frames : List PoseFrame) :
    detectExerciseType P frames = specDetectExerciseType P frames := by
  unfold detectExerciseType specDetectExerciseType
  by_cases h4 : frames.length < 4
  · rw [if_pos h4, if_pos (Or.inl h4)]
  · rw [if_neg h4]
    by_cases h2 : (usableFrames frames).length < 2
    · simp only [List.length_map]
      rw [if_pos h2]
      rw [if_pos (show frames.length < 4 ∨ (usableFrames frames).length < 2 from Or.inr h2)]
    · simp only [List.length_map]
      rw [if_neg h2]
      rw [if_neg (show ¬ (frames.length < 4 ∨ (usableFrames frames).length < 2) from by
        push_neg
        exact ⟨le_of_not_lt h4, le_of_not_lt h2⟩)]

-- C7: outlier rejection -----------------------------------------------------

theorem zipWith_getD {α β γ : Type} (f : α → β → γ) (l1 : List α) (l2 : List β)
    (i : ℕ) (d1 : α) (d2 : β) (d3 : γ) (h1 : i < l1.length) (h2 : i < l2.length) :
    (List.zipWith f l1 l2).getD i d3 = f (l1.getD i d1) (l2.getD i d2) := by
  rw [List.getD_eq_getElem _ _ (by rw [List.length_zipWith]; exact lt_min h1 h2)]
  rw [List.getElem_zipWith]
  rw [List.getD_eq_getElem _ _ h1, List.getD_eq_getElem _ _ h2]

/-- C7: in `rejectOutliers`, past the first valid frame (positive body
height, previous landmarks available), a landmark whose displacement from
its previous-frame position exceeds 15% of the body height is replaced by
the previous-frame position with the new observation's visibility, and a
landmark within the threshold passes through unchanged. -/
theorem claim_C7 (P : MathPrims) (raw prev : List Landmark) (h : ℚ) (hh : 0 < h)
    (i : ℕ) (hi : i < raw.length) (hlen : raw.length ≤ prev.length) :
    (P.sqrt (((raw.getD i dfltLm).x - (prev.getD i dfltLm).x) *
        ((raw.getD i dfltLm).x - (prev.getD i dfltLm).x) +
        ((raw.getD i dfltLm).y - (prev.getD i dfltLm).y) *
        ((raw.getD i dfltLm).y - (prev.getD i dfltLm).y)) > h * 0.15 →
      (rejectOutliers P raw (some prev) h).getD i dfltLm =
        { prev.getD i dfltLm with visibility := (raw.getD i dfltLm).visibility }) ∧
    (¬ (P.sqrt (((raw.getD i dfltLm).x - (prev.getD i dfltLm).x) *
        ((raw.getD i dfltLm).x - (prev.getD i dfltLm).x) +
        ((raw.getD i dfltLm).y - (prev.getD i dfltLm).y) *
        ((raw.getD i dfltLm).y - (prev.getD i dfltLm).y)) > h * 0.15) →
      (rejectOutliers P raw (some prev) h).getD i dfltLm = raw.getD i dfltLm) := by
  simp only [rejectOutliers]
  rw [if_neg (not_le.mpr hh)]
  rw [zipWith_getD _ _ _ _ dfltLm dfltLm _ hi (lt_of_lt_of_le hi hlen)]
  constructor
  · intro hc
    rw [if_pos hc]
  · intro hc
    rw [if_neg hc]

/-- Witness for C7: a unit jump against body height 1 is rejected and keeps
the new observation's visibility. -/
theorem claim_C7_witness :
    (0 : ℚ) < 1 ∧ 0 < c7raw.length ∧ c7raw.length ≤ c7prev.length ∧
    P1.sqrt ((1 - 0) * (1 - 0) + (1 - 0) * (1 - 0)) > (1 : ℚ) * 0.15 ∧
    (rejectOutliers P1 c7raw (some c7prev) 1).getD 0 dfltLm = ⟨0, 0, 0, 0.9⟩ := by
  have hc : P1.sqrt (((c7raw.getD 0 dfltLm).x - (c7prev.getD 0 dfltLm).x) *
      ((c7raw.getD 0 dfltLm).x - (c7prev.getD 0 dfltLm).x) +
      ((c7raw.getD 0 dfltLm).y - (c7prev.getD 0 dfltLm).y) *
      ((c7raw.getD 0 dfltLm).y - (c7prev.getD 0 dfltLm).y)) > (1 : ℚ) * 0.15 := by
    with_unfolding_all decide
  refine ⟨by norm_num, by decide, by decide, by with_unfolding_all decide, ?_⟩
  have := (claim_C7 P1 c7raw c7prev 1 (by norm_num) 0 (by decide) (by decide)).1 hc
  rw [this]
  with_unfolding_all decide

-- C9: trim round-trip -------------------------------------------------------

/-- Counterexample to C9 as frozen: on `c9Frames` the original clip yields
one detected rep but re-running `detectReps` on the trimmed clip yields
none. -/
theorem claim_C9_counterexample :
    (detectReps (trimFramesToReps c9Frames).frames).length ≠
      (detectReps c9Frames).length := by
  with_unfolding_all decide

/-- C9 (amended): the trim round-trip preserves the detected rep count
whenever the trimmed output is the whole original sequence — in
particular, when no reps are detected the trim returns the sequence
unchanged; for a proper sub-range the count can change. -/
theorem claim_C9 (frames : List PoseFrame) :
    (detectReps frames = [] → (trimFramesToReps frames).frames = frames) ∧
    ((trimFramesToReps frames).frames = frames →
      (detectReps (trimFramesToReps frames).frames).length =
        (detectReps frames).length) := by
  constructor
  · intro h
    simp only [trimFramesToReps, h]
    split_ifs <;> rfl
  · intro h
    rw [h]

/-- Witness for C9's amended theorem at a concrete flat clip. -/
theorem claim_C9_witness :
    detectReps flatFrames = [] ∧ (trimFramesToReps flatFrames).frames = flatFrames ∧
    (detectReps (trimFramesToReps flatFrames).frames).length =
      (detectReps flatFrames).length := by
  have h : detectReps flatFrames = [] := by with_unfolding_all decide
  have h2 := (claim_C9 flatFrames).1 h
  exact ⟨h, h2, (claim_C9 flatFrames).2 h2⟩

-- C10: structure of the detected rep list -----------------------------------

theorem movingAverage_length (v : List ℚ) (w : ℕ) :
    (movingAverage v w).length = v.length := by
  unfold movingAverage
  rw [List.length_map, List.length_range]

theorem findValleyLeft_le (s : List ℚ) (b : ℕ) : findValleyLeft s b ≤ b := by
  induction b with
  | zero => exact le_refl 0
  | succ i ih =>
    unfold findValleyLeft
    split_ifs
    · exact le_refl _
    · exact le_trans ih (Nat.le_succ i)

theorem findValleyRight_bounds (s : List ℚ) (m : ℕ) :
    ∀ i, i ≤ findValleyRight s m i ∧ (i ≤ m → findValleyRight s m i ≤ m) := by
  have H : ∀ k i, m - i ≤ k →
      i ≤ findValleyRight s m i ∧ (i ≤ m → findValleyRight s m i ≤ m) := by
    intro k
    induction k with
    | zero =>
      intro i hk
      rw [findValleyRight]
      rw [dif_neg (by omega)]
      exact ⟨le_refl i, fun h => h⟩
    | succ k ih =>
      intro i hk
      rw [findValleyRight]
      by_cases h1 : i < m
      · rw [dif_pos h1]
        split_ifs
        · exact ⟨le_refl i, fun _ => le_of_lt h1⟩
        · obtain ⟨a, b⟩ := ih (i + 1) (by omega)
          exact ⟨le_trans (Nat.le_succ i) a, fun _ => b (by omega)⟩
      · rw [dif_neg h1]
        exact ⟨le_refl i, fun h => h⟩
  exact fun i => H (m - i) i (le_refl _)

theorem isBottom_localMax (s : List ℚ) (a : ℕ) (ha : isBottom s a = true) :
    s.getD a 0 > s.getD (a - 1) 0 ∧ s.getD a 0 > s.getD (a - 2) 0 ∧
    s.getD a 0 > s.getD (a + 1) 0 ∧ s.getD a 0 > s.getD (a + 2) 0 := by
  by_contra hcon
  simp only [isBottom] at ha
  rw [if_neg hcon] at ha
  exact Bool.false_ne_true ha

theorem isBottom_gap (s : List ℚ) (a b : ℕ) (ha : isBottom s a = true)
    (hb : isBottom s b = true) (hab : a < b) : a + 3 ≤ b := by
  obtain ⟨_, _, hA1, hA2⟩ := isBottom_localMax s a ha
  obtain ⟨hB1, hB2, _, _⟩ := isBottom_localMax s b hb
  by_contra hc
  rcases (by omega : b = a + 1 ∨ b = a + 2) with rfl | rfl
  · rw [Nat.add_sub_cancel] at hB1
    linarith
  · rw [Nat.add_sub_cancel] at hB2
    linarith

theorem chain3_filter (s : List ℚ) (l : List ℕ) (hl : List.Pairwise (· < ·) l) :
    List.Chain' (fun a b => a + 3 ≤ b) (l.filter (isBottom s)) := by
  apply List.Pairwise.chain'
  refine List.Pairwise.imp_of_mem ?_ (hl.filter _)
  intro a b ha hb hlt
  exact isBottom_gap s a b (List.mem_filter.mp ha).2 (List.mem_filter.mp hb).2 hlt

theorem buildReps_spec (s : List ℚ) (n : ℕ) (hn : s.length = n) (h5 : 5 ≤ n) :
    ∀ (bs : List ℕ) (prev? : Option ℕ),
      (∀ b ∈ bs, 2 ≤ b ∧ b + 3 ≤ n) →
      List.Chain' (fun a b => a + 3 ≤ b) bs →
      (∀ p, prev? = some p → ∀ b ∈ bs.head?, p + 3 ≤ b) →
      ((∀ r ∈ buildReps s n prev? bs, r.startFrame ≤ r.bottomFrame ∧
          r.bottomFrame ≤ r.endFrame ∧ r.endFrame ≤ n - 1) ∧
       List.Chain' (fun r t => r.bottomFrame + 3 ≤ t.bottomFrame ∧
          t.startFrame = r.endFrame + 1) (buildReps s n prev? bs)) := by
  intro bs
  induction bs with
  | nil =>
    intro prev? _ _ _
    exact ⟨fun r hr => absurd hr (List.not_mem_nil r), List.chain'_nil⟩
  | cons b rest ih =>
    intro prev? hmem hchain hprev
    obtain ⟨hb2, hb3⟩ := hmem b (List.mem_cons_self b rest)
    obtain ⟨hcadj, hcrest⟩ := List.chain'_cons'.mp hchain
    have hmem' : ∀ x ∈ rest, 2 ≤ x ∧ x + 3 ≤ n :=
      fun x hx => hmem x (List.mem_cons_of_mem b hx)
    obtain ⟨ihA, ihB⟩ := ih (some b) hmem' hcrest
      (by intro p hp x hx; cases hp; exact hcadj x hx)
    cases prev? with
    | none =>
      have hst : findValleyLeft s b ≤ b := findValleyLeft_le s b
      cases rest with
      | nil =>
        obtain ⟨hv1, hv2⟩ := findValleyRight_bounds s (s.length - 1) b
        have hv2' : findValleyRight s (s.length - 1) b ≤ n - 1 := by
          rw [hn] at hv2 ⊢
          exact hv2 (by omega)
        constructor
        · intro r hr
          simp only [buildReps, List.mem_singleton] at hr
          subst hr
          refine ⟨?_, ?_, ?_⟩
          · show max 0 (findValleyLeft s b) ≤ b
            simpa [Nat.zero_max] using hst
          · show b ≤ min (n - 1) (findValleyRight s (s.length - 1) b)
            exact le_min (by omega) hv1
          · show min (n - 1) (findValleyRight s (s.length - 1) b) ≤ n - 1
            exact min_le_left _ _
        · simp only [buildReps]
          exact List.chain'_singleton _
      | cons nb rest' =>
        have hnb : b + 3 ≤ nb := hcadj nb (by simp)
        obtain ⟨_, hnb3⟩ := hmem' nb (List.mem_cons_self nb rest')
        constructor
        · intro r hr
          rcases List.mem_cons.mp hr with rfl | hr'
          · refine ⟨?_, ?_, ?_⟩
            · show max 0 (findValleyLeft s b) ≤ b
              simpa [Nat.zero_max] using hst
            · show b ≤ min (n - 1) ((b + nb) / 2 - 1)
              exact le_min (by omega) (by omega)
            · show min (n - 1) ((b + nb) / 2 - 1) ≤ n - 1
              exact min_le_left _ _
          · exact ihA r hr'
        · simp only [buildReps] at ihB ⊢
          rw [List.chain'_cons']
          refine ⟨?_, ihB⟩
          intro t ht
          simp only [List.head?_cons, Option.mem_def, Option.some.injEq] at ht
          subst ht
          constructor
          · show b + 3 ≤ nb
            exact hnb
          · show max 0 ((b + nb) / 2) = min (n - 1) ((b + nb) / 2 - 1) + 1
            rw [Nat.zero_max, min_eq_right (by omega)]
            omega
    | some p =>
      have hpb : p + 3 ≤ b := hprev p rfl b (by simp)
      have hst : (p + b) / 2 ≤ b := by omega
      cases rest with
      | nil =>
        obtain ⟨hv1, hv2⟩ := findValleyRight_bounds s (s.length - 1) b
        have hv2' : findValleyRight s (s.length - 1) b ≤ n - 1 := by
          rw [hn] at hv2 ⊢
          exact hv2 (by omega)
        constructor
        · intro r hr
          simp only [buildReps, List.mem_singleton] at hr
          subst hr
          refine ⟨?_, ?_, ?_⟩
          · show max 0 ((p + b) / 2) ≤ b
            simpa [Nat.zero_max] using hst
          · show b ≤ min (n - 1) (findValleyRight s (s.length - 1) b)
            exact le_min (by omega) hv1
          · show min (n - 1) (findValleyRight s (s.length - 1) b) ≤ n - 1
            exact min_le_left _ _
        · simp only [buildReps]
          exact List.chain'_singleton _
      | cons nb rest' =>
        have hnb : b + 3 ≤ nb := hcadj nb (by simp)
        obtain ⟨_, hnb3⟩ := hmem' nb (List.mem_cons_self nb rest')
        constructor
        · intro r hr
          rcases List.mem_cons.mp hr with rfl | hr'
          · refine ⟨?_, ?_, ?_⟩
            · show max 0 ((p + b) / 2) ≤ b
              simpa [Nat.zero_max] using hst
            · show b ≤ min (n - 1) ((b + nb) / 2 - 1)
              exact le_min (by omega) (by omega)
            · show min (n - 1) ((b + nb) / 2 - 1) ≤ n - 1
              exact min_le_left _ _
          · exact ihA r hr'
        · simp only [buildReps] at ihB ⊢
          rw [List.chain'_cons']
          refine ⟨?_, ihB⟩
          intro t ht
          simp only [List.head?_cons, Option.mem_def, Option.some.injEq] at ht
          subst ht
          constructor
          · show b + 3 ≤ nb
            exact hnb
          · show max 0 ((b + nb) / 2) = min (n - 1) ((b + nb) / 2 - 1) + 1
            rw [Nat.zero_max, min_eq_right (by omega)]
            omega

/-- C10: the list returned by detectReps is ordered and non-overlapping:
bottoms are strictly increasing with consecutive bottoms at least 3 frames
apart, every rep satisfies startFrame ≤ bottomFrame ≤ endFrame ≤
frames.length - 1 (startFrame ≥ 0 holds by the ℕ index type), and each
later rep starts exactly one frame after the previous rep ends, so no
frame belongs to two reps. -/
theorem claim_C10 (frames : List PoseFrame) :
    ((detectReps frames).Forall (fun r => r.startFrame ≤ r.bottomFrame ∧
       r.bottomFrame ≤ r.endFrame ∧ r.endFrame ≤ frames.length - 1)) ∧
    List.Chain' (fun r t => r.bottomFrame + 3 ≤ t.bottomFrame ∧
       t.startFrame = r.endFrame + 1) (detectReps frames) := by
  unfold detectReps
  lift_lets
  extract_lets smoothed bottoms
  have hsm : smoothed = movingAverage (hipYValues frames) 5 := rfl
  have hbo : bottoms = (List.range' 2 (smoothed.length - 4)).filter (isBottom smoothed) := rfl
  split_ifs with h5 hB
  · exact ⟨List.forall_iff_forall_mem.mpr (fun r hr => absurd hr (List.not_mem_nil r)),
      List.chain'_nil⟩
  · exact ⟨List.forall_iff_forall_mem.mpr (fun r hr => absurd hr (List.not_mem_nil r)),
      List.chain'_nil⟩
  · have hs : smoothed.length = frames.length := by
      rw [hsm, movingAverage_length]
      unfold hipYValues
      exact List.length_map _ _
    have h5' : 5 ≤ frames.length := le_of_not_lt h5
    have hmem : ∀ b ∈ bottoms, 2 ≤ b ∧ b + 3 ≤ frames.length := by
      intro b hb
      rw [hbo] at hb
      have h1 := (List.mem_filter.mp hb).1
      rw [List.mem_range'_1] at h1
      omega
    have hchain : List.Chain' (fun a b => a + 3 ≤ b) bottoms := by
      rw [hbo]
      exact chain3_filter smoothed _ (List.pairwise_lt_range' _ _)
    obtain ⟨hA, hB2⟩ := buildReps_spec smoothed frames.length hs h5' bottoms none hmem hchain
      (fun p hp => by cases hp)
    exact ⟨List.forall_iff_forall_mem.mpr hA, hB2⟩

-- C6: camera angle detection ------------------------------------------------

theorem firstOccs_mem (a : CameraAngle) (l : List CameraAngle) :
    a ∈ firstOccs l ↔ a ∈ l := by
  have H : ∀ (k : ℕ) (l : List CameraAngle), l.length ≤ k → (a ∈ firstOccs l ↔ a ∈ l) := by
    intro k
    induction k with
    | zero =>
      intro l hl
      have : l = [] := List.length_eq_zero.mp (by omega)
      subst this
      simp [firstOccs]
    | succ k ih =>
      intro l hl
      cases l with
      | nil => simp [firstOccs]
      | cons x t =>
        rw [firstOccs]
        simp only [List.mem_cons]
        have hlf : (t.filter (fun b => b ≠ x)).length ≤ k := by
          have := List.length_filter_le (fun b => decide (b ≠ x)) t
          simp only [List.length_cons] at hl
          omega
        constructor
        · rintro (rfl | h)
          · exact Or.inl rfl
          · exact Or.inr (List.mem_of_mem_filter ((ih _ hlf).mp h))
        · rintro (rfl | h)
          · exact Or.inl rfl
          · by_cases hax : a = x
            · exact Or.inl hax
            · exact Or.inr ((ih _ hlf).mpr (List.mem_filter.mpr ⟨h, by simp [hax]⟩))
  exact H l.length l (le_refl _)

theorem mapEntries_count (votes : List CameraAngle) :
    ∀ p ∈ mapEntries votes, p.2 = votes.count p.1 ∧ p.1 ∈ votes := by
  intro p hp
  unfold mapEntries at hp
  obtain ⟨a, ha, rfl⟩ := List.mem_map.mp hp
  exact ⟨rfl, (firstOccs_mem a votes).mp ha⟩

theorem mapEntries_self (votes : List CameraAngle) (a : CameraAngle) (ha : a ∈ votes) :
    (a, votes.count a) ∈ mapEntries votes := by
  unfold mapEntries
  exact List.mem_map.mpr ⟨a, (firstOccs_mem a votes).mpr ha, rfl⟩

theorem count_pair_le (a b : CameraAngle) (hab : a ≠ b) (l : List CameraAngle) :
    l.count a + l.count b ≤ l.length := by
  induction l with
  | nil => simp
  | cons x t ih =>
    simp only [List.count_cons, List.length_cons]
    by_cases h1 : (x == a) = true
    · have e1 : x = a := eq_of_beq h1
      by_cases h2 : (x == b) = true
      · exact absurd (e1 ▸ eq_of_beq h2) hab
      · rw [if_pos h1, if_neg h2]
        omega
    · by_cases h2 : (x == b) = true
      · rw [if_neg h1, if_pos h2]
        omega
      · rw [if_neg h1, if_neg h2]
        omega

theorem foldBest_spec (l : List (CameraAngle × ℕ)) (init : CameraAngle × ℕ) :
    ((l.foldl (fun best p => if p.2 > best.2 then p else best) init) = init ∨
     (l.foldl (fun best p => if p.2 > best.2 then p else best) init) ∈ l) ∧
    init.2 ≤ (l.foldl (fun best p => if p.2 > best.2 then p else best) init).2 ∧
    (∀ p ∈ l, p.2 ≤ (l.foldl (fun best p => if p.2 > best.2 then p else best) init).2) := by
  induction l generalizing init with
  | nil => exact ⟨Or.inl rfl, le_refl _, fun p hp => absurd hp (List.not_mem_nil p)⟩
  | cons q t ih =>
    simp only [List.foldl_cons]
    by_cases hq : q.2 > init.2
    · rw [if_pos hq]
      obtain ⟨r1, r2, r3⟩ := ih q
      refine ⟨?_, le_trans (le_of_lt hq) r2, ?_⟩
      · rcases r1 with h | h
        · exact Or.inr (by rw [h]; exact List.mem_cons_self q t)
        · exact Or.inr (List.mem_cons_of_mem q h)
      · intro p hp
        rcases List.mem_cons.mp hp with rfl | hp'
        · exact r2
        · exact r3 p hp'
    · rw [if_neg hq]
      obtain ⟨r1, r2, r3⟩ := ih init
      refine ⟨?_, r2, ?_⟩
      · rcases r1 with h | h
        · exact Or.inl h
        · exact Or.inr (List.mem_cons_of_mem q h)
      · intro p hp
        rcases List.mem_cons.mp hp with rfl | hp'
        · exact le_trans (le_of_not_lt hq) r2
        · exact r3 p hp'

theorem bestVote_spec (votes : List CameraAngle) :
    (bestVote votes = (.uncertain, 0) ∨ bestVote votes ∈ mapEntries votes) ∧
    ∀ p ∈ mapEntries votes, p.2 ≤ (bestVote votes).2 := by
  obtain ⟨r1, r2, r3⟩ := foldBest_spec (mapEntries votes) (.uncertain, 0)
  exact ⟨r1, r3⟩

theorem cameraVotes_ne_nil (frames : List PoseFrame) (s : ℕ)
    (hs : findStableStart frames = some s) : cameraVotes frames s ≠ [] := by
  have hpred := List.find?_some hs
  have hmem := List.mem_of_find?_eq_some hs
  rw [List.mem_range] at hmem
  have hsl : s < frames.length := by omega
  rw [List.all_eq_true] at hpred
  have hvis := hpred s (by rw [List.mem_range'_1]; omega)
  have hvis' : ¬ ((lmk (getF frames s) LEFT_SHOULDER).visibility < 0.3 ∨
      (lmk (getF frames s) RIGHT_SHOULDER).visibility < 0.3) := by
    unfold bothShouldersVisible at hvis
    rwa [decide_eq_true_eq] at hvis
  have hcl : ∃ a, classifyFrame (getF frames s) = some a := by
    unfold classifyFrame
    rw [if_neg hvis']
    lift_lets
    extract_lets sp fv lv rv
    split_ifs <;> exact ⟨_, rfl⟩
  obtain ⟨a, ha⟩ := hcl
  have hgf : getF frames s = frames[s] := List.getD_eq_getElem _ _ hsl
  have hmem15 : frames[s] ∈ (frames.drop s).take 15 := by
    rw [List.mem_iff_getElem]
    refine ⟨0, ?_, ?_⟩
    · rw [List.length_take, List.length_drop]
      omega
    · rw [List.getElem_take, List.getElem_drop]
      simp
  exact List.ne_nil_of_mem (List.mem_filterMap.mpr ⟨frames[s], hmem15, by rw [← hgf]; exact ha⟩)

/-- C6: detectCameraAngle returns uncertain when no run of 5 consecutive
shoulder-visible frames exists; when the first such run starts at `s`, the
votes are the per-frame classifications of up to 15 sample frames from
`s`, and the result is any label holding at least 60% of the votes, and
uncertain when no label reaches 60%. -/
theorem claim_C6 (frames : List PoseFrame) :
    (findStableStart frames = none → detectCameraAngle frames = .uncertain) ∧
    (∀ s, findStableStart frames = some s →
      (∀ a, 3 * (cameraVotes frames s).length ≤ 5 * (cameraVotes frames s).count a →
        detectCameraAngle frames = a) ∧
      ((∀ a, 5 * (cameraVotes frames s).count a < 3 * (cameraVotes frames s).length) →
        detectCameraAngle frames = .uncertain)) := by
  constructor
  · intro hnone
    unfold detectCameraAngle
    split_ifs with h5
    · rfl
    · rw [hnone]
  · intro s hs
    have hlen5 : 5 ≤ frames.length := by
      have := List.mem_of_find?_eq_some hs
      rw [List.mem_range] at this
      omega
    have hvne := cameraVotes_ne_nil frames s hs
    have hvpos : 0 < (cameraVotes frames s).length := List.length_pos.mpr hvne
    have hred : detectCameraAngle frames =
        (if ((bestVote (cameraVotes frames s)).2 : ℚ) /
            ((cameraVotes frames s).length : ℚ) ≥ 0.6
         then (bestVote (cameraVotes frames s)).1 else .uncertain) := by
      unfold detectCameraAngle
      rw [if_neg (by omega), hs]
      simp only [if_neg hvne]
    obtain ⟨hb1, hb2⟩ := bestVote_spec (cameraVotes frames s)
    constructor
    · intro a hcount
      have hane : a ∈ cameraVotes frames s := by
        rw [← List.count_pos_iff]
        omega
      have hbest_ge : (cameraVotes frames s).count a ≤ (bestVote (cameraVotes frames s)).2 :=
        hb2 _ (mapEntries_self _ a hane)
      have hbest_eq : bestVote (cameraVotes frames s) =
          (a, (cameraVotes frames s).count a) := by
        rcases hb1 with h | h
        · exfalso
          rw [h] at hbest_ge
          simp only at hbest_ge
          omega
        · obtain ⟨he, _⟩ := mapEntries_count _ _ h
          by_cases hax : (bestVote (cameraVotes frames s)).1 = a
          · refine Prod.ext hax ?_
            rw [he, hax]
          · exfalso
            have hsum := count_pair_le _ _ hax (cameraVotes frames s)
            omega
      have hc : (0.6 : ℚ) ≤ ((cameraVotes frames s).count a : ℚ) /
          ((cameraVotes frames s).length : ℚ) := by
        rw [le_div_iff₀ (by exact_mod_cast hvpos)]
        have hq : (3 : ℚ) * ((cameraVotes frames s).length : ℚ) ≤
            5 * ((cameraVotes frames s).count a : ℚ) := by exact_mod_cast hcount
        linarith
      rw [hred, hbest_eq]
      dsimp only
      rw [if_pos hc]
    · intro hall
      have hlt : 5 * (bestVote (cameraVotes frames s)).2 <
          3 * (cameraVotes frames s).length := by
        rcases hb1 with h | h
        · rw [h]
          simp only
          omega
        · obtain ⟨he, _⟩ := mapEntries_count _ _ h
          have := hall (bestVote (cameraVotes frames s)).1
          omega
      have hc : ¬ ((0.6 : ℚ) ≤ ((bestVote (cameraVotes frames s)).2 : ℚ) /
          ((cameraVotes frames s).length : ℚ)) := by
        rw [not_le, div_lt_iff₀ (by exact_mod_cast hvpos)]
        have hq : (5 : ℚ) * ((bestVote (cameraVotes frames s)).2 : ℚ) <
            3 * ((cameraVotes frames s).length : ℚ) := by exact_mod_cast hlt
        linarith
      rw [hred, if_neg hc]

/-- Witness for C6: a five-frame frontal clip has a stable window at 0 and
a unanimous frontal vote, so the detector returns frontal. -/
theorem claim_C6_witness :
    findStableStart camFrames = some 0 ∧
    3 * (cameraVotes camFrames 0).length ≤ 5 * (cameraVotes camFrames 0).count .frontal ∧
    detectCameraAngle camFrames = .frontal := by
  have h1 : findStableStart camFrames = some 0 := by with_unfolding_all decide
  have h2 : 3 * (cameraVotes camFrames 0).length ≤
      5 * (cameraVotes camFrames 0).count .frontal := by with_unfolding_all decide
  exact ⟨h1, h2, ((claim_C6 camFrames).2 0 h1).1 .frontal h2⟩

end RepPolice
